import Mathlib

/-!
Verification development for the tratihubis Trac-to-Github migration tool
(`tratihubis.py` and `translator.py`).

The definitions below are a shallow embedding of the Python source:
Python dictionaries become association lists, the Github client becomes a
record of pure oracles plus an explicit trace of tracker calls, exceptions
become `Except` values, and the regular-expression substitution pipeline of
`translator.py` is run by a small backtracking matcher that follows Python
`re` semantics (leftmost match, left-biased alternation, greedy and lazy
repetition, non-overlapping global substitution).
-/

namespace Tratihubis

/-- Association-list lookup, modelling Python `dict.get` / `dict.__getitem__`
(first binding wins; the engine never stores a key twice). -/
def assocGet {α β : Type} [DecidableEq α] : List (α × β) → α → Option β
  | [], _ => none
  | (k, v) :: rest, key => if k = key then some v else assocGet rest key

/-- Association-list update, modelling Python `dict.__setitem__`. -/
def assocSet {α β : Type} [DecidableEq α] : List (α × β) → α → β → List (α × β)
  | [], k, v => [(k, v)]
  | (k', v') :: rest, k, v =>
    if k' = k then (k, v) :: rest else (k', v') :: assocSet rest k v

/-- The characters Python `str.strip()` and the `\s` regex class treat as
whitespace (space, tab, newline, carriage return, vertical tab, form feed). -/
def pyIsSpace (c : Char) : Bool :=
  c = ' ' || c = '\t' || c = '\n' || c = '\r' || c = '\x0b' || c = '\x0c'

/-- Python `str.strip()` on a character list. -/
def pyStrip (s : List Char) : List Char :=
  ((s.dropWhile pyIsSpace).reverse.dropWhile pyIsSpace).reverse

/-- Python `str.split(sep)` for a one-character separator: always returns at
least one (possibly empty) field, so `"".split(",") == [""]`. -/
def splitOnChar (sep : Char) : List Char → List (List Char)
  | [] => [[]]
  | c :: rest =>
    let r := splitOnChar sep rest
    if c = sep then [] :: r
    else
      match r with
      | [] => [[c]]
      | g :: gs => (c :: g) :: gs

/-- Decimal digits to a natural number, as Python `int`/`long` conversion does
once the literal is known to consist of digits. -/
def digitsToNat (ds : List Char) : Nat :=
  ds.foldl (fun acc c => 10 * acc + (c.toNat - '0'.toNat)) 0

/-- Python `long(text)` with base 10: strip surrounding whitespace, allow one
optional sign, then require at least one decimal digit; anything else raises
`ValueError` (modelled as `none`). -/
def pythonLong (s : String) : Option Int :=
  let t := pyStrip s.data
  let signAndDigits : Int × List Char :=
    match t with
    | '-' :: rest => (-1, rest)
    | '+' :: rest => (1, rest)
    | l => (1, l)
  if signAndDigits.2 ≠ [] ∧ signAndDigits.2.all Char.isDigit then
    some (signAndDigits.1 * (Int.ofNat (digitsToNat signAndDigits.2)))
  else none

/-- `os.path.basename`, as used by `_CsvDataError`. -/
def basename (p : String) : String :=
  String.mk (((splitOnChar '/' p.data).getLastD []))

/-- The rendered message of `_CsvDataError.__init__` (tratihubis.py lines
219-225): `'%s:%d: %s' % (os.path.basename(csvPath), rowIndex + 1, message)`,
so the 0-based `rowIndex` is reported as a 1-based row number. -/
def csvErrorMessage (csvPath : String) (rowIndex : Nat) (message : String) : String :=
  basename csvPath ++ ":" ++ toString (rowIndex + 1) ++ ": " ++ message

/-- The failure modes of the embedded code: `_ConfigError` (bad config
option), `_CsvDataError` (malformed CSV row, message rendered by
`csvErrorMessage`), and Python's builtin uncategorized `ValueError` as raised
by `long(...)` on a non-numeric literal. -/
inductive MigrateError where
  | configError (option : String) (message : String)
  | csvDataError (text : String)
  | valueError (literal : String)
deriving DecidableEq, Repr

/-- The config option names `_OPTION_USERS` / `_OPTION_LABELS`. -/
def OPTION_USERS : String := "users"

def OPTION_LABELS : String := "labels"

/-! ## Label transformations (`_LabelTransformations`) -/

/-- One parsed rule `(tracField, tracValue, githubLabel)` as stored in
`_LabelTransformations._transformations`. -/
abbrev LabelRule := String × String × String

/-- Shallow embedding of `_LabelTransformations.labelFor` (tratihubis.py
lines 333-346): walk the transformation list in definition order and return
the label of the first rule whose field and value both match, or `none`.
The source's while-loop over `transformationIndex` becomes structural
recursion over the list; the source returns the Github label object
`self._labelMap[transformedLabel]`, of which only the name is ever used, so
we return the label name. -/
def labelFor : List LabelRule → String → String → Option String
  | [], _, _ => none
  | (f, v, l) :: rest, tracField, tracValue =>
    if f = tracField ∧ v = tracValue then some l
    else labelFor rest tracField tracValue

/-- Spec-side restatement of the `labelFor` lookup contract, written from the
spec's words ("returns the first rule (in definition order — first match
wins) whose (field, value) pair matches, or no label if none matches") using
`List.find?`.  Used only to compare against the source-derived `labelFor`. -/
def labelForSpec (transformations : List LabelRule) (tracField tracValue : String) :
    Option String :=
  (transformations.find? fun r => r.1 = tracField ∧ r.2.1 = tracValue).map (·.2.2)

/-! ## User mapping (`_createTracToGithubUserMap`, `_githubUserFor`) -/

/-- Shallow embedding of `_validateGithubUser` (lines 563-576): the
`hub.get_user` existence probe becomes the oracle `userExists`, and the
process-wide set `_validatedGithubUsers` is threaded explicitly as `cache`. -/
def validateGithubUser (userExists : String → Bool) (cache : List String)
    (tracUser githubUser : String) : Except MigrateError (List String) :=
  if githubUser ∈ cache then .ok cache
  else if userExists githubUser then .ok (githubUser :: cache)
  else
    .error (.configError OPTION_USERS
      ("Trac user \"" ++ tracUser ++ "\" must be mapped to an existing Github user instead of \""
        ++ githubUser ++ "\""))

/-- Loop body of `_createTracToGithubUserMap` (lines 579-599), one iteration
per comma-separated `mapping`; `result` is the map built so far and `cache`
the validated-user cache. -/
def userMapGo (userExists : String → Bool) :
    List String → List (String × String) → List String →
    Except MigrateError (List (String × String) × List String)
  | [], result, cache => .ok (result, cache)
  | mapping :: rest, result, cache =>
    let words := (splitOnChar ':' mapping.data).map fun w => String.mk (pyStrip w)
    if words ≠ [] then
      if words.length ≠ 2 then
        .error (.configError OPTION_USERS
          ("mapping must use syntax \"trac-user: github-user\" but is: \"" ++ mapping ++ "\""))
      else
        let tracUser := words.getD 0 ""
        let githubUser := words.getD 1 ""
        if tracUser.data.length = 0 then
          .error (.configError OPTION_USERS
            ("Trac user must not be empty: \"" ++ mapping ++ "\""))
        else if githubUser.data.length = 0 then
          .error (.configError OPTION_USERS
            ("Github user must not be empty: \"" ++ mapping ++ "\""))
        else
          match assocGet result tracUser with
          | some existing =>
            .error (.configError OPTION_USERS
              ("Trac user \"" ++ tracUser ++ "\" must be mapped to only one Github user instead of \""
                ++ existing ++ "\" and \"" ++ githubUser ++ "\""))
          | none =>
            let result' := result ++ [(tracUser, githubUser)]
            if githubUser ≠ "*" then
              match validateGithubUser userExists cache tracUser githubUser with
              | .error e => .error e
              | .ok cache' => userMapGo userExists rest result' cache'
            else userMapGo userExists rest result' cache
    else userMapGo userExists rest result cache

/-- Shallow embedding of `_createTracToGithubUserMap` (lines 579-599): split
the definition on commas and process each `trac-user: github-user` entry;
returns the parsed map together with the updated validated-user cache. -/
def createTracToGithubUserMap (userExists : String → Bool) (definition : String) :
    Except MigrateError (List (String × String) × List String) :=
  userMapGo userExists ((splitOnChar ',' definition.data).map String.mk) [] []

/-- Shallow embedding of `_githubUserFor` (lines 602-614): exact lookup, then
wildcard-key fallback, else `_ConfigError`; a resolved target equal to the
wildcard sentinel `*` yields `tracUser` unchanged; with `validate` set the
result is checked through `validateGithubUser` (updating the cache).  The
source's error message contains a literal unformatted `%s`, which we keep. -/
def githubUserFor (userExists : String → Bool) (cache : List String)
    (tracToGithubUserMap : List (String × String)) (tracUser : String)
    (validate : Bool) : Except MigrateError (String × List String) :=
  match
    (match assocGet tracToGithubUserMap tracUser with
     | some r => some r
     | none => assocGet tracToGithubUserMap "*") with
  | none => .error (.configError OPTION_USERS "Trac user \"%s\" must be mapped to a Github user")
  | some r =>
    let result := if r = "*" then tracUser else r
    if validate then
      match validateGithubUser userExists cache tracUser result with
      | .error e => .error e
      | .ok cache' => .ok (result, cache')
    else .ok (result, cache)

/-! ## CSV readers (`_tracTicketMaps`, `_createTicketToCommentsMap`) -/

/-- The fields of one ticket row, as extracted by `_tracTicketMaps`
(lines 387-399). -/
structure Ticket where
  id : Int
  type : String
  owner : String
  reporter : String
  milestone : String
  status : String
  resolution : String
  summary : String
  description : String
deriving DecidableEq, Repr

/-- One comment row, as extracted by `_createTicketToCommentsMap`
(lines 444-449): the ticket id from column 0, author from column 2 and body
from column 3 (column 1, the date, is ignored by the source as well). -/
structure TracComment where
  id : Int
  author : String
  body : String
deriving DecidableEq, Repr

/-- Loop body of `_tracTicketMaps` (lines 376-401): every row — the header
row included — must have exactly 9 columns, else `_CsvDataError`; the first
row is then discarded as the header, and each data row's id is converted
with `long(row[0])`, a non-numeric id raising an uncategorized `ValueError`.
The source's trailing `%r` dump of the offending row in the column-count
message is omitted from the rendered message. -/
def tracTicketRows (ticketsCsvPath : String) :
    List (List String) → Nat → Bool → Except MigrateError (List Ticket)
  | [], _, _ => .ok []
  | row :: rest, rowIndex, hasReadHeader =>
    if row.length ≠ 9 then
      .error (.csvDataError (csvErrorMessage ticketsCsvPath rowIndex
        ("ticket row must have 9 columns but has " ++ toString row.length)))
    else if hasReadHeader then
      match pythonLong (row.getD 0 "") with
      | none => .error (.valueError (row.getD 0 ""))
      | some idValue =>
        match tracTicketRows ticketsCsvPath rest (rowIndex + 1) true with
        | .error e => .error e
        | .ok tickets =>
          .ok ({ id := idValue, type := row.getD 1 "", owner := row.getD 2 "",
                 reporter := row.getD 3 "", milestone := row.getD 4 "",
                 status := row.getD 5 "", resolution := row.getD 6 "",
                 summary := row.getD 7 "", description := row.getD 8 "" } :: tickets)
    else tracTicketRows ticketsCsvPath rest (rowIndex + 1) true

/-- Shallow embedding of `_tracTicketMaps` (lines 371-401) on the parsed CSV
rows (the byte-level CSV/UTF-8 decoding of `_UnicodeCsvReader` is treated as
the row source). -/
def tracTicketMaps (ticketsCsvPath : String) (rows : List (List String)) :
    Except MigrateError (List Ticket) :=
  tracTicketRows ticketsCsvPath rows 0 false

/-- Loop body of `_createTicketToCommentsMap` (lines 436-457): every row —
the header included — must have exactly 4 columns; data rows are grouped by
ticket id into `result` in file order, a non-numeric id raising
`ValueError` as in the ticket reader. -/
def commentRows (commentsCsvPath : String) :
    List (List String) → Nat → Bool → List (Int × List TracComment) →
    Except MigrateError (List (Int × List TracComment))
  | [], _, _, result => .ok result
  | row :: rest, rowIndex, hasReadHeader, result =>
    if row.length ≠ 4 then
      .error (.csvDataError (csvErrorMessage commentsCsvPath rowIndex
        ("comment row must have 4 columns but has " ++ toString row.length)))
    else if hasReadHeader then
      match pythonLong (row.getD 0 "") with
      | none => .error (.valueError (row.getD 0 ""))
      | some idValue =>
        let c : TracComment := { id := idValue, author := row.getD 2 "", body := row.getD 3 "" }
        let result' :=
          match assocGet result idValue with
          | none => result ++ [(idValue, [c])]
          | some cs => assocSet result idValue (cs ++ [c])
        commentRows commentsCsvPath rest (rowIndex + 1) true result'
    else commentRows commentsCsvPath rest (rowIndex + 1) true result

/-- Shallow embedding of `_createTicketToCommentsMap` (lines 430-458): with
no comments CSV configured (`commentsCsvPath is None`) the map is empty and
nothing is read. -/
def createTicketToCommentsMap (commentsCsvPath : String)
    (rows : Option (List (List String))) :
    Except MigrateError (List (Int × List TracComment)) :=
  match rows with
  | none => .ok []
  | some rs => commentRows commentsCsvPath rs 0 false []

/-! ## The migration engine (`migrateTickets`)

Calls into the Github client are recorded as `Event`s.  A `real` flag on the
creation events distinguishes an actual tracker call (`repo.create_milestone`
/ `repo.create_issue`) from the `_FakeMilestone` / `_FakeIssue` placeholder
objects built in dry-run mode, which issue no call at all. -/

/-- Trace of interactions with the issue tracker.  `createMilestone true` and
`createIssue true` are the real mutating calls; with `real = false` they
record the construction of a `_FakeMilestone` / `_FakeIssue` placeholder
(no network call).  `editLabels`, `createComment` and `editState` are always
real mutating calls. -/
inductive Event where
  | createMilestone (real : Bool) (title : String)
  | createIssue (real : Bool) (number : Int) (title : String) (body : String)
      (assignee : String) (milestoneNumber : Option Int)
  | editLabels (issueNumber : Int) (labels : List String)
  | createComment (issueNumber : Int) (body : String)
  | editState (issueNumber : Int) (state : String)
deriving DecidableEq, Repr

/-- Whether an event is a mutating call actually issued to the tracker. -/
def Event.isMutating : Event → Bool
  | .createMilestone real _ => real
  | .createIssue real _ _ _ _ _ => real
  | .editLabels _ _ => true
  | .createComment _ _ => true
  | .editState _ _ => true

/-- Whether an event is the construction of a dry-run placeholder object
(a `_FakeMilestone` or `_FakeIssue`), which issues no tracker call. -/
def Event.isFakeCreation : Event → Bool
  | .createMilestone false _ => true
  | .createIssue false _ _ _ _ _ => true
  | _ => false

/-- The inputs of `migrateTickets` (lines 461-534) that stay fixed during the
ticket loop: the mode flag, the conversion range, the parsed user map, the
label transformations (`_LabelTransformations._transformations`, built from
the `labels` option), the pre-grouped comments map, and the oracles standing
for the Github client (`userExists` for `hub.get_user`, and the numbers the
tracker would assign to newly created milestones and issues). -/
structure MigrateEnv where
  pretend : Bool
  firstTicketIdToConvert : Int
  lastTicketIdToConvert : Int
  userExists : String → Bool
  tracToGithubUserMap : List (String × String)
  transformations : List LabelRule
  commentsMap : List (Int × List TracComment)
  realMilestoneNumber : String → Int
  realIssueNumber : Nat → Int

/-- The mutable run state of `migrateTickets`: the title-to-number milestone
map (`existingMilestones`), the dry-run issue counter (`fakeIssueId`), a
count of real issue creations (feeding the `realIssueNumber` oracle), the
process-wide `_validatedGithubUsers` cache, and the event trace. -/
structure MigrateState where
  milestones : List (String × Int)
  fakeIssueId : Int
  realIssueCount : Nat
  validatedUsers : List String
  events : List Event
deriving DecidableEq, Repr

/-- Append one event to the trace. -/
def MigrateState.emit (st : MigrateState) (e : Event) : MigrateState :=
  { st with events := st.events ++ [e] }

/-- Shallow embedding of `_createMilestoneMap` (lines 404-414): seed the
title-to-number map from the open milestones, then the closed ones. -/
def createMilestoneMap (openMilestones closedMilestones : List (String × Int)) :
    List (String × Int) :=
  (openMilestones ++ closedMilestones).foldl (fun m p => assocSet m p.1 p.2) []

/-- Shallow embedding of the local closure `possiblyAddLabel` (lines
473-478): look the label up with `labelFor`; when found, append its name to
`labels` only when `pretend` is off. -/
def possiblyAddLabel (pretend : Bool) (transformations : List LabelRule)
    (labels : List String) (tracField tracValue : String) : List String :=
  match labelFor transformations tracField tracValue with
  | some labelName => if pretend then labels else labels ++ [labelName]
  | none => labels

/-- The milestone lookup-or-create step of `migrateTickets` (lines 491-500),
for a non-empty milestone title: when the title is absent from the map, a
milestone is created (a real `repo.create_milestone` call, or a
`_FakeMilestone` numbered `len(existingMilestones) + 1` in dry-run mode) and
immediately inserted; the returned number is `milestone.number` of the
mapped milestone. -/
def resolveMilestone (env : MigrateEnv) (st : MigrateState) (milestoneTitle : String) :
    MigrateState × Int :=
  let st' :=
    if (assocGet st.milestones milestoneTitle).isNone then
      if env.pretend then
        { st with
          events := st.events ++ [.createMilestone false milestoneTitle],
          milestones := assocSet st.milestones milestoneTitle
            ((st.milestones.length : Int) + 1) }
      else
        { st with
          events := st.events ++ [.createMilestone true milestoneTitle],
          milestones := assocSet st.milestones milestoneTitle
            (env.realMilestoneNumber milestoneTitle) }
    else st
  (st', (assocGet st'.milestones milestoneTitle).getD 0)

/-- Lines 489-503 of `migrateTickets`: a ticket with an empty (stripped)
milestone title gets no milestone; otherwise the title is resolved or
created through `resolveMilestone`. -/
def milestoneStage (env : MigrateEnv) (st : MigrateState) (milestoneTitle : String) :
    MigrateState × Option Int :=
  if milestoneTitle.data.length ≠ 0 then
    match resolveMilestone env st milestoneTitle with
    | (st', n) => (st', some n)
  else (st, none)

/-- Lines 505-512 of `migrateTickets`: create the issue — a real
`repo.create_issue` call (with the milestone number when present), or a
`_FakeIssue` numbered by the local `fakeIssueId` counter in dry-run mode —
and return the resulting issue number. -/
def createIssueStep (env : MigrateEnv) (st : MigrateState)
    (title body assignee : String) (milestoneNumber : Option Int) :
    MigrateState × Int :=
  if env.pretend then
    ({ st with
       fakeIssueId := st.fakeIssueId + 1,
       events := st.events ++ [.createIssue false st.fakeIssueId title body assignee milestoneNumber] },
     st.fakeIssueId)
  else
    let number := env.realIssueNumber st.realIssueCount
    ({ st with
       realIssueCount := st.realIssueCount + 1,
       events := st.events ++ [.createIssue true number title body assignee milestoneNumber] },
     number)

/-- Lines 520-528 of `migrateTickets`: for each comment of the ticket, in
file order, resolve the author without validation (may still raise
`_ConfigError` when no rule applies) and, when not in dry-run mode, issue
`issue.create_comment`. -/
def addComments (env : MigrateEnv) (issueNumber : Int) :
    MigrateState → List TracComment → MigrateState × Option MigrateError
  | st, [] => (st, none)
  | st, c :: rest =>
    match githubUserFor env.userExists st.validatedUsers env.tracToGithubUserMap c.author false with
    | .error e => (st, some e)
    | .ok (_, cache) =>
      let st1 := { st with validatedUsers := cache }
      let st2 := if env.pretend then st1 else st1.emit (.createComment issueNumber c.body)
      addComments env issueNumber st2 rest

/-- The conversion-range test of `migrateTickets` (lines 484-485):
`(ticketId >= firstTicketIdToConvert) and ((ticketId <= lastTicketIdToConvert)
or (lastTicketIdToConvert == 0))`. -/
def shouldConvert (firstId lastId ticketId : Int) : Bool :=
  decide (ticketId ≥ firstId) && (decide (ticketId ≤ lastId) || decide (lastId = 0))

/-- The convert branch of the ticket loop (lines 486-532), entered after the
assignee has been resolved: milestone stage, issue creation, label edit
(note the `issue.edit(labels=labels)` call is not itself guarded by
`pretend` — only the filling of `labels` is), comments, and closing. -/
def processTicketConvert (env : MigrateEnv) (st : MigrateState) (t : Ticket)
    (githubAssignee : String) : MigrateState × Option MigrateError :=
  match milestoneStage env st (String.mk (pyStrip t.milestone.data)) with
  | (st1, milestoneNumber) =>
    match createIssueStep env st1 t.summary t.description githubAssignee milestoneNumber with
    | (st2, issueNumber) =>
      let labels := possiblyAddLabel env.pretend env.transformations
        (possiblyAddLabel env.pretend env.transformations [] "type" t.type)
        "resolution" t.resolution
      let st3 := if labels.length > 0 then st2.emit (.editLabels issueNumber labels) else st2
      match
        (match assocGet env.commentsMap t.id with
         | none => (st3, (none : Option MigrateError))
         | some cs => addComments env issueNumber st3 cs) with
      | (st4, some e) => (st4, some e)
      | (st4, none) =>
        let st5 :=
          if t.status = "closed" then
            if env.pretend then st4 else st4.emit (.editState issueNumber "closed")
          else st4
        (st5, none)

/-- One iteration of the ticket loop of `migrateTickets` (lines 481-534): a
ticket outside the conversion range is skipped (only logged — no state
change, no event); otherwise the owner is resolved (with validation) and the
convert branch runs. -/
def processTicket (env : MigrateEnv) (st : MigrateState) (t : Ticket) :
    MigrateState × Option MigrateError :=
  if shouldConvert env.firstTicketIdToConvert env.lastTicketIdToConvert t.id then
    match githubUserFor env.userExists st.validatedUsers env.tracToGithubUserMap
        (String.mk (pyStrip t.owner.data)) true with
    | .error e => (st, some e)
    | .ok (githubAssignee, cache) =>
      processTicketConvert env { st with validatedUsers := cache } t githubAssignee
  else (st, none)

/-- The ticket loop of `migrateTickets`: tickets are processed in file order
until the first raised error aborts the run (events already emitted are
kept, matching calls already made before the exception). -/
def runTickets (env : MigrateEnv) :
    MigrateState → List Ticket → MigrateState × Option MigrateError
  | st, [] => (st, none)
  | st, t :: rest =>
    match processTicket env st t with
    | (st', some e) => (st', some e)
    | (st', none) => runTickets env st' rest

/-- Shallow embedding of `migrateTickets` (lines 461-534).  The CSV inputs
arrive already parsed (`tickets`, `commentsMap`); `existingIssueCount` is
`len(_createIssueMap(repo))`, seeding `fakeIssueId = 1 + len(existingIssues)`;
the milestone map is seeded by `_createMilestoneMap` from the open and closed
milestones; the user map is parsed from `userMapping` (a parse failure aborts
before any ticket is processed); `transformations` stands for the
`_LabelTransformations` built from the `labels` option (its tokenizing parser
is outside the claims and not modelled). -/
def migrateTickets (userExists : String → Bool) (realMilestoneNumber : String → Int)
    (realIssueNumber : Nat → Int) (existingIssueCount : Nat)
    (openMilestones closedMilestones : List (String × Int))
    (commentsMap : List (Int × List TracComment)) (tickets : List Ticket)
    (firstTicketIdToConvert lastTicketIdToConvert : Int)
    (transformations : List LabelRule) (userMapping : String) (pretend : Bool) :
    MigrateState × Option MigrateError :=
  let st0 : MigrateState :=
    { milestones := createMilestoneMap openMilestones closedMilestones,
      fakeIssueId := 1 + (existingIssueCount : Int),
      realIssueCount := 0, validatedUsers := [], events := [] }
  match createTracToGithubUserMap userExists userMapping with
  | .error e => (st0, some e)
  | .ok (userMap, cache) =>
    runTickets
      { pretend := pretend,
        firstTicketIdToConvert := firstTicketIdToConvert,
        lastTicketIdToConvert := lastTicketIdToConvert,
        userExists := userExists,
        tracToGithubUserMap := userMap,
        transformations := transformations,
        commentsMap := commentsMap,
        realMilestoneNumber := realMilestoneNumber,
        realIssueNumber := realIssueNumber }
      { st0 with validatedUsers := cache } tickets

/-- The titles of the milestones created during a run (real or simulated), in
creation order, read off the event trace. -/
def createdMilestoneTitles (events : List Event) : List String :=
  events.filterMap fun e =>
    match e with
    | .createMilestone _ title => some title
    | _ => none

end Tratihubis

namespace Translator

open Tratihubis (pyIsSpace assocGet digitsToNat)

/-! ## A backtracking regex matcher for `translator.py`

`Translator.compile_subs` (translator.py lines 14-48) compiles a fixed list
of `(pattern, replacement)` pairs with `re.DOTALL` and applies them in order
through `re.sub` (`translate`, lines 58-66).  The matcher below implements
the fragment of Python `re` those patterns use: literals, character classes,
`|` (left-biased), capturing groups, greedy and lazy bounded/unbounded
repetition, the `^` anchor (no MULTILINE, so: start of subject) and the word
boundary `\b`; `re.DOTALL` makes `.` accept every character.  Matching
returns all alternatives in Python's backtracking priority order, so the
head of the list is the match Python picks. -/

/-- Regular-expression abstract syntax. -/
inductive Re where
  | eps
  | lit (c : Char)
  | cls (p : Char → Bool)
  | seq (a b : Re)
  | alt (a b : Re)
  | grp (idx : Nat) (r : Re)
  | rep (lo : Nat) (hi : Option Nat) (lzy : Bool) (r : Re)
  | bol
  | wordB

/-- Captured groups: group index to captured text (later bindings shadow
earlier ones, like Python keeping the last repetition's capture). -/
abbrev Caps := List (Nat × List Char)

/-- One way a pattern can match a prefix of the subject: the updated
captures, the last consumed character (`none` when still at the start of the
subject) and the remaining suffix. -/
abbrev MatchRes := Caps × Option Char × List Char

/-- Python's `\w` for plain (non-unicode) patterns: `[a-zA-Z0-9_]`. -/
def isWordChar (c : Char) : Bool := c.isAlphanum || c = '_'

/-- Lookup of a captured group (absent groups render as empty, and every
group referenced by the source's replacements always participates). -/
def capGet : Caps → Nat → List Char
  | [], _ => []
  | (i, v) :: rest, n => if i = n then v else capGet rest n

/-- The backtracking matcher.  `mrun fuel r prev s caps` returns every way
`r` can match a prefix of `s`, in Python's backtracking priority order
(head first): alternation prefers the left branch, greedy repetition longer
matches, lazy repetition shorter ones; repetition beyond the mandatory
minimum only continues while each iteration consumes at least one character
(as Python stops repeating on an empty match).  `prev` is the character just
before the current position (`none` at the start of the subject), consulted
by `^` and `\b`.  `fuel` bounds the recursion depth; `matchFuel` below
always supplies enough, since every level of nesting either descends one
pattern node or consumes input. -/
def mrun : Nat → Re → Option Char → List Char → Caps → List MatchRes
  | 0, _, _, _, _ => []
  | fuel + 1, r, prev, s, caps =>
    match r with
    | .eps => [(caps, prev, s)]
    | .lit c =>
      match s with
      | [] => []
      | x :: rest => if x = c then [(caps, some x, rest)] else []
    | .cls p =>
      match s with
      | [] => []
      | x :: rest => if p x then [(caps, some x, rest)] else []
    | .seq a b =>
      (mrun fuel a prev s caps).flatMap fun t => mrun fuel b t.2.1 t.2.2 t.1
    | .alt a b => mrun fuel a prev s caps ++ mrun fuel b prev s caps
    | .grp i r' =>
      (mrun fuel r' prev s caps).map fun t =>
        ((i, s.take (s.length - t.2.2.length)) :: t.1, t.2.1, t.2.2)
    | .rep lo hi lz r' =>
      match lo with
      | m + 1 =>
        (mrun fuel r' prev s caps).flatMap fun t =>
          mrun fuel (.rep m (hi.map (· - 1)) lz r') t.2.1 t.2.2 t.1
      | 0 =>
        match hi with
        | some 0 => [(caps, prev, s)]
        | _ =>
          let more :=
            ((mrun fuel r' prev s caps).filter fun t => t.2.2.length < s.length).flatMap
              fun t => mrun fuel (.rep 0 (hi.map (· - 1)) lz r') t.2.1 t.2.2 t.1
          if lz then (caps, prev, s) :: more else more ++ [(caps, prev, s)]
    | .bol => if prev.isNone then [(caps, prev, s)] else []
    | .wordB =>
      let before := match prev with | some c => isWordChar c | none => false
      let after := match s with | c :: _ => isWordChar c | [] => false
      if before ≠ after then [(caps, prev, s)] else []

/-- Recursion-depth budget for `mrun`: generous for the source's patterns
(at most a few dozen nodes deep) and subjects of the lengths handled here. -/
def matchFuel (s : List Char) : Nat := 2 * s.length + 120

/-- Leftmost-match search, as Python `re` scans: try to match `r` at each
position of `s` from left to right (the end-of-subject position included);
on success return the text before the match, the captures, the matched text,
the last character consumed so far and the rest of the subject. -/
def searchFrom (r : Re) :
    Option Char → List Char → Option (List Char × Caps × List Char × Option Char × List Char)
  | prev, s =>
    match (mrun (matchFuel s) r prev s []).head? with
    | some t => some ([], t.1, s.take (s.length - t.2.2.length), t.2.1, t.2.2)
    | none =>
      match s with
      | [] => none
      | c :: rest => (searchFrom r (some c) rest).map fun q => (c :: q.1, q.2)

/-- One global substitution pass with a fallible replacement function, as
Python `re.sub` with a callable replacement: find the leftmost match,
substitute, and continue after the match (an empty match additionally passes
one character through, as Python advances past it); a raised exception from
the replacement aborts the pass.  The fuel is the subject length plus one,
enough since every step consumes at least one character. -/
def subGo {ε : Type} (r : Re) (f : Caps → Except ε (List Char)) :
    Nat → Option Char → List Char → Except ε (List Char)
  | 0, _, s => .ok s
  | fuel + 1, prev, s =>
    match searchFrom r prev s with
    | none => .ok s
    | some (skipped, caps, matched, prevAfter, rest) =>
      match f caps with
      | .error e => .error e
      | .ok repl =>
        match matched with
        | [] =>
          match rest with
          | [] => .ok (skipped ++ repl)
          | c :: rest' =>
            match subGo r f fuel (some c) rest' with
            | .error e => .error e
            | .ok tail => .ok (skipped ++ repl ++ c :: tail)
        | _ :: _ =>
          match subGo r f fuel prevAfter rest with
          | .error e => .error e
          | .ok tail => .ok (skipped ++ repl ++ tail)

/-- Python `pattern.sub(f, s)` with a fallible replacement callable. -/
def subAllF {ε : Type} (r : Re) (f : Caps → Except ε (List Char)) (s : List Char) :
    Except ε (List Char) :=
  subGo r f (s.length + 1) none s

/-- A piece of a replacement template: literal text or a group reference
(`\1`, `\2`). -/
inductive TmplItem where
  | litS (cs : List Char)
  | ref (n : Nat)

/-- Render a replacement template against the captures of a match. -/
def renderTmpl (tmpl : List TmplItem) (caps : Caps) : List Char :=
  tmpl.flatMap fun it =>
    match it with
    | .litS cs => cs
    | .ref n => capGet caps n

/-- Python `pattern.sub(template, s)` for a plain string template. -/
def subAll (r : Re) (tmpl : List TmplItem) (s : List Char) : List Char :=
  match subAllF (ε := Empty) r (fun caps => .ok (renderTmpl tmpl caps)) s with
  | .ok t => t
  | .error e => e.elim

/-! ### The compiled substitution rules of `compile_subs` -/

/-- Sequence a string of literal characters. -/
def strRe (s : String) : Re := s.data.foldr (fun c r => Re.seq (Re.lit c) r) Re.eps

/-- Sequence a list of patterns. -/
def seqList (l : List Re) : Re := l.foldr Re.seq Re.eps

/-- `.` under `re.DOTALL`: any character. -/
def anyC : Re := .cls fun _ => true

/-- `\s`. -/
def spaceC : Re := .cls pyIsSpace

/-- `\w`. -/
def wordC : Re := .cls isWordChar

/-- `\d` / `[0-9]`. -/
def digitC : Re := .cls Char.isDigit

/-- `[0-9a-f]`. -/
def hexLowerC : Re := .cls fun c => c.isDigit || ('a' ≤ c && c ≤ 'f')

/-- `r*?` / `r*`. -/
def star (lz : Bool) (r : Re) : Re := .rep 0 none lz r

/-- `r+?` / `r+`. -/
def plus (lz : Bool) (r : Re) : Re := .rep 1 none lz r

/-- A compiled rule: pattern and replacement template. -/
abbrev SubRule := Re × List TmplItem

/-- `{` (written via its code point to keep it out of string literals). -/
def lcurl : Char := '\x7b'

/-- `}`. -/
def rcurl : Char := '\x7d'

/-- The literal `{{{`. -/
def braces3 : Re := seqList [.lit lcurl, .lit lcurl, .lit lcurl]

/-- The literal `}}}`. -/
def bracesClose3 : Re := seqList [.lit rcurl, .lit rcurl, .lit rcurl]

/-- The literal `'''` (Trac bold marker). -/
def tq3 : Re := seqList [.lit '\x27', .lit '\x27', .lit '\x27']

/-- The literal `''` (Trac italic marker). -/
def tq2 : Re := seqList [.lit '\x27', .lit '\x27']

/-- The character class `[^\s\n\,\]\.\(\)]` of the link-reordering rule. -/
def linkUrlChar (c : Char) : Bool :=
  !(pyIsSpace c || c = ',' || c = ']' || c = '.' || c = '(' || c = ')')

/-- The 26 context-free substitution rules of `Translator.compile_subs`
(translator.py lines 15-42), in source order; `u` is `self.trac_url` as
interpolated into the replacement strings by `str.format`.  Each entry is
annotated with the source pattern and replacement it embeds. -/
def compileSubsContextFree (u : String) : List SubRule :=
  [ -- `\{\{\{\s*?#!python(.*?)\}\}\}` -> "```python\1```"
    (seqList [braces3, star true spaceC, strRe "#!python", .grp 1 (star true anyC),
        bracesClose3],
      [.litS "```python".data, .ref 1, .litS "```".data]),
    -- `\{\{\{([^\n]*?)\}\}\}` -> "`\1`"
    (seqList [braces3, .grp 1 (star true (.cls fun c => c ≠ '\n')), bracesClose3],
      [.litS "`".data, .ref 1, .litS "`".data]),
    -- `\{\{\{(.*?)\}\}\}` -> "```\1```"
    (seqList [braces3, .grp 1 (star true anyC), bracesClose3],
      [.litS "```".data, .ref 1, .litS "```".data]),
    -- `====\s(.+?)\s====` -> "h4. \1"
    (seqList [strRe "====", spaceC, .grp 1 (plus true anyC), spaceC, strRe "===="],
      [.litS "h4. ".data, .ref 1]),
    -- `===\s(.+?)\s===` -> "h3. \1"
    (seqList [strRe "===", spaceC, .grp 1 (plus true anyC), spaceC, strRe "==="],
      [.litS "h3. ".data, .ref 1]),
    -- `==\s(.+?)\s==` -> "h2. \1"
    (seqList [strRe "==", spaceC, .grp 1 (plus true anyC), spaceC, strRe "=="],
      [.litS "h2. ".data, .ref 1]),
    -- `\!(([A-Z][a-z0-9]+){2,})` -> "\1"   (CamelCase de-escaping)
    (seqList [.lit '!', .grp 1 (.rep 2 none false
        (.grp 2 (seqList [.cls Char.isUpper,
          plus false (.cls fun c => c.isLower || c.isDigit)])))],
      [.ref 1]),
    -- `'''(.+)'''` -> "*\1*"
    (seqList [tq3, .grp 1 (plus false anyC), tq3],
      [.litS "*".data, .ref 1, .litS "*".data]),
    -- `''(.+)''` -> "_\1_"
    (seqList [tq2, .grp 1 (plus false anyC), tq2],
      [.litS "_".data, .ref 1, .litS "_".data]),
    -- `^\s\*` -> "*"
    (seqList [.bol, spaceC, .lit '*'], [.litS "*".data]),
    -- `^\s\d\.` -> "#"
    (seqList [.bol, spaceC, digitC, .lit '.'], [.litS "#".data]),
    -- `!(\w)` -> "\1"
    (seqList [.lit '!', .grp 1 wordC], [.ref 1]),
    -- `(^|\n)[ ]{4,}` -> "\1"
    (seqList [.grp 1 (.alt .bol (.lit '\n')), .rep 4 none false (.lit ' ')],
      [.ref 1]),
    -- `\[([^\s\n\,\]\.\(\)]{4,}?)\s{1,}([^\n]+?)\]` -> "[\2](\1)"
    (seqList [.lit '[', .grp 1 (.rep 4 none true (.cls linkUrlChar)),
        plus false spaceC, .grp 2 (plus true (.cls fun c => c ≠ '\n')), .lit ']'],
      [.litS "[".data, .ref 2, .litS "](".data, .ref 1, .litS ")".data]),
    -- `(\s|^)r([0-9]{1,4})` -> "\1[r\2]({trac_url}/changeset/\2/historical)"
    (seqList [.grp 1 (.alt spaceC .bol), .lit 'r', .grp 2 (.rep 1 (some 4) false digitC)],
      [.ref 1, .litS "[r".data, .ref 2, .litS ("](" ++ u ++ "/changeset/").data,
       .ref 2, .litS "/historical)".data]),
    -- `changeset:([0-9]{1,4})` -> "[r\1]({trac_url}/changeset/\1/historical)"
    (seqList [strRe "changeset:", .grp 1 (.rep 1 (some 4) false digitC)],
      [.litS "[r".data, .ref 1, .litS ("](" ++ u ++ "/changeset/").data,
       .ref 1, .litS "/historical)".data]),
    -- `source:branches/([\w\-]*)` -> "[\1](../tree/\1)"
    (seqList [strRe "source:branches/", .grp 1 (star false (.cls fun c => isWordChar c || c = '-'))],
      [.litS "[".data, .ref 1, .litS "](../tree/".data, .ref 1, .litS ")".data]),
    -- `source:fipy/([\w/\.]*)@([0-9a-f]{5,40})` -> "[\1@\2](../tree/\2/\1)"
    (seqList [strRe "source:fipy/",
        .grp 1 (star false (.cls fun c => isWordChar c || c = '/' || c = '.')),
        .lit '@', .grp 2 (.rep 5 (some 40) false hexLowerC)],
      [.litS "[".data, .ref 1, .litS "@".data, .ref 2, .litS "](../tree/".data,
       .ref 2, .litS "/".data, .ref 1, .litS ")".data]),
    -- `source:([\w/\.]*)` -> "[\1](../tree/master/\1)"
    (seqList [strRe "source:",
        .grp 1 (star false (.cls fun c => isWordChar c || c = '/' || c = '.'))],
      [.litS "[".data, .ref 1, .litS "](../tree/master/".data, .ref 1, .litS ")".data]),
    -- `blog:(\w*)` -> "[blog:\1]({trac_url}/blog/\1)"
    (seqList [strRe "blog:", .grp 1 (star false wordC)],
      [.litS "[blog:".data, .ref 1, .litS ("](" ++ u ++ "/blog/").data,
       .ref 1, .litS ")".data]),
    -- `(\b)([0-9a-f]{5,40})\.` -> "\1\2"
    (seqList [.grp 1 .wordB, .grp 2 (.rep 5 (some 40) false hexLowerC), .lit '.'],
      [.ref 1, .ref 2]),
    -- ` (\w*?)::` -> "#### \1"
    (seqList [.lit ' ', .grp 1 (star true wordC), strRe "::"],
      [.litS "#### ".data, .ref 1]),
    -- `\[([0-9]{1,4})\/(.+?)\]` -> "[\1/\2]({trac_url}/changeset/\1/historical/\2)"
    (seqList [.lit '[', .grp 1 (.rep 1 (some 4) false digitC), .lit '/',
        .grp 2 (plus true anyC), .lit ']'],
      [.litS "[".data, .ref 1, .litS "/".data, .ref 2,
       .litS ("](" ++ u ++ "/changeset/").data, .ref 1, .litS "/historical/".data,
       .ref 2, .litS ")".data]),
    -- `\[changeset:"(\S*?)\/fipy"\]` -> "\1"
    (seqList [strRe "[changeset:\"", .grp 1 (star true (.cls fun c => !pyIsSpace c)),
        strRe "/fipy\"]"],
      [.ref 1]),
    -- `\^([0-9]{1,5})\^` -> "<sup>\1</sup>"
    (seqList [.lit '^', .grp 1 (.rep 1 (some 5) false digitC), .lit '^'],
      [.litS "<sup>".data, .ref 1, .litS "</sup>".data]),
    -- `diff:@([0-9]{1,5}):([0-9]{1,5})` ->
    --   "[diff:@\1:\2]({trac_url}/changeset?new=\2&old=\1)"
    (seqList [strRe "diff:@", .grp 1 (.rep 1 (some 5) false digitC), .lit ':',
        .grp 2 (.rep 1 (some 5) false digitC)],
      [.litS "[diff:@".data, .ref 1, .litS ":".data, .ref 2,
       .litS ("](" ++ u ++ "/changeset?new=").data, .ref 2, .litS "&old=".data,
       .ref 1, .litS ")".data]) ]

/-- Apply one compiled rule by global substitution. -/
def applySubRule (s : List Char) (ru : SubRule) : List Char := subAll ru.1 ru.2 s

/-- The ordered context-free substitution pipeline: `translate`'s fold of
`re.sub` over the compiled rules, restricted to the context-free family
(the ticket cross-reference rule appended at lines 44-46 and the per-ticket
attachment rules of `no_compile_subs` are separate families). -/
def contextFreeApply (u : String) (s : List Char) : List Char :=
  (compileSubsContextFree u).foldl applySubRule s

/-- The error raised when a `ticket:<id>` reference is absent from the
ticket-to-issue map: Python's `KeyError` from
`self.ticketsToIssuesMap[int(m.group(1))]`. -/
inductive TranslateError where
  | keyError (ticketId : Nat)
deriving DecidableEq, Repr

/-- The pattern of the ticket cross-reference rule,
`r"ticket:([0-9]{1,3})"` (translator.py line 44). -/
def ticketRefRe : Re := seqList [strRe "ticket:", .grp 1 (.rep 1 (some 3) false digitC)]

/-- The replacement callable of the ticket rule (line 45):
`lambda m: r"issue #{0}".format(self.ticketsToIssuesMap[int(m.group(1))])`;
a ticket id absent from the map raises `KeyError`. -/
def ticketRefReplacement (ticketsToIssuesMap : List (Nat × Nat)) (caps : Caps) :
    Except TranslateError (List Char) :=
  let tid := digitsToNat (capGet caps 1)
  match assocGet ticketsToIssuesMap tid with
  | some n => .ok ("issue #".data ++ (toString n).data)
  | none => .error (.keyError tid)

/-- Global substitution of the ticket cross-reference rule, as `translate`
runs it via `re.sub` (last in the compiled pipeline). -/
def ticketRefSub (ticketsToIssuesMap : List (Nat × Nat)) (s : List Char) :
    Except TranslateError (List Char) :=
  subAllF ticketRefRe (ticketRefReplacement ticketsToIssuesMap) s

end Translator

deriving instance DecidableEq for Except

namespace Tratihubis

/-- The run invariant behind claim C5: the titles of the milestones created
so far are pairwise distinct, none of them was present in the seeded map
`seed`, every seeded title is (still) in the live map, and every created
title is in the live map. -/
def MilestoneInv (seed : List (String × Int)) (st : MigrateState) : Prop :=
  (createdMilestoneTitles st.events).Nodup
  ∧ (∀ t ∈ createdMilestoneTitles st.events, assocGet seed t = none)
  ∧ (∀ t, assocGet seed t ≠ none → assocGet st.milestones t ≠ none)
  ∧ (∀ t ∈ createdMilestoneTitles st.events, assocGet st.milestones t ≠ none)

/-- A concrete environment used to instantiate hypothesis-bearing theorems:
dry run, conversion starting at ticket id 5. -/
def sampleEnv : MigrateEnv :=
  { pretend := true, firstTicketIdToConvert := 5, lastTicketIdToConvert := 0,
    userExists := fun _ => true, tracToGithubUserMap := [("*", "*")],
    transformations := [], commentsMap := [],
    realMilestoneNumber := fun _ => 1, realIssueNumber := fun _ => 1 }

/-- Same as `sampleEnv` but converting every ticket from id 1 on. -/
def sampleEnvAll : MigrateEnv :=
  { sampleEnv with firstTicketIdToConvert := 1 }

/-- A concrete initial run state. -/
def sampleState : MigrateState :=
  { milestones := [], fakeIssueId := 1, realIssueCount := 0,
    validatedUsers := [], events := [] }

/-- A concrete ticket with id 1. -/
def sampleTicket : Ticket :=
  { id := 1, type := "defect", owner := "hugo", reporter := "hugo",
    milestone := "", status := "new", resolution := "", summary := "Sample",
    description := "Body" }

end Tratihubis

/-! # Theorems

Helper lemmas first, then one theorem per claim (with its witness or
counterexample where required). -/

section Helpers

open Tratihubis

theorem labelFor_eq_labelForSpec (transformations : List LabelRule)
    (tracField tracValue : String) :
    labelFor transformations tracField tracValue =
      labelForSpec transformations tracField tracValue := by
  induction transformations with
  | nil => rfl
  | cons r rest ih =>
    obtain ⟨rf, rv, rl⟩ := r
    by_cases h : rf = tracField ∧ rv = tracValue
    · simp [labelFor, labelForSpec, h]
    · simp only [labelFor, labelForSpec, List.find?_cons] at *
      simp [h, ih]

theorem githubUserFor_wildcard_identity (ex : String → Bool) (cache : List String)
    (x : String) : githubUserFor ex cache [("*", "*")] x false = .ok (x, cache) := by
  by_cases hx : x = "*"
  · subst hx; simp [githubUserFor, assocGet]
  · simp only [githubUserFor, assocGet]
    rw [if_neg (fun h => hx h.symm)]
    simp

end Helpers

open Tratihubis in
/-- Claim C2: `labelFor` returns the label of the first rule, in definition
order, whose (field, value) pair matches exactly, and `none` when no rule
matches; with two rules sharing field and value but with different labels,
the first-listed rule's label is returned. -/
theorem claim_C2_labelFor_first_match :
    (∀ (transformations : List LabelRule) (tracField tracValue : String),
        labelFor transformations tracField tracValue =
          labelForSpec transformations tracField tracValue)
  ∧ labelFor [("type", "defect", "bug"), ("type", "defect", "critical")]
      "type" "defect" = some "bug"
  ∧ labelFor [("type", "defect", "bug")] "resolution" "wontfix" = none :=
  ⟨labelFor_eq_labelForSpec, by decide, by decide⟩

open Tratihubis in
/-- Claim C3: `_githubUserFor` resolves an exact-match key to its target,
falls back to the wildcard key `*` when the key is absent, and fails with a
`_ConfigError` when neither is present; a resolved target equal to `*`
yields the source user unchanged.  For the parsed definition
`"hugo: sepp, *: roskakori"` this gives `hugo -> sepp` and
`anyone -> roskakori`; for `"*:*"` every user resolves to itself. -/
theorem claim_C3_resolve_contract :
    (∀ (ex : String → Bool) (cache : List String) (m : List (String × String))
        (u t : String), assocGet m u = some t → t ≠ "*" →
        githubUserFor ex cache m u false = .ok (t, cache))
  ∧ (∀ (ex : String → Bool) (cache : List String) (m : List (String × String))
        (u : String), assocGet m u = some "*" →
        githubUserFor ex cache m u false = .ok (u, cache))
  ∧ (∀ (ex : String → Bool) (cache : List String) (m : List (String × String))
        (u t : String), assocGet m u = none → assocGet m "*" = some t → t ≠ "*" →
        githubUserFor ex cache m u false = .ok (t, cache))
  ∧ (∀ (ex : String → Bool) (cache : List String) (m : List (String × String))
        (u : String), assocGet m u = none → assocGet m "*" = some "*" →
        githubUserFor ex cache m u false = .ok (u, cache))
  ∧ (∀ (ex : String → Bool) (cache : List String) (m : List (String × String))
        (u : String), assocGet m u = none → assocGet m "*" = none →
        githubUserFor ex cache m u false =
          .error (.configError OPTION_USERS
            "Trac user \"%s\" must be mapped to a Github user"))
  ∧ createTracToGithubUserMap (fun _ => true) "hugo: sepp, *: roskakori" =
      .ok ([("hugo", "sepp"), ("*", "roskakori")], ["roskakori", "sepp"])
  ∧ (∀ (ex : String → Bool) (cache : List String),
        githubUserFor ex cache [("hugo", "sepp"), ("*", "roskakori")] "hugo" false =
          .ok ("sepp", cache))
  ∧ (∀ (ex : String → Bool) (cache : List String),
        githubUserFor ex cache [("hugo", "sepp"), ("*", "roskakori")] "anyone" false =
          .ok ("roskakori", cache))
  ∧ (∀ (ex : String → Bool) (cache : List String) (x : String),
        githubUserFor ex cache [("*", "*")] x false = .ok (x, cache)) := by
  refine ⟨?_, ?_, ?_, ?_, ?_, by decide, ?_, ?_, githubUserFor_wildcard_identity⟩
  · intro ex cache m u t h ht
    simp [githubUserFor, h, ht]
  · intro ex cache m u h
    simp [githubUserFor, h]
  · intro ex cache m u t h hw ht
    simp [githubUserFor, h, hw, ht]
  · intro ex cache m u h hw
    simp [githubUserFor, h, hw]
  · intro ex cache m u h hw
    simp [githubUserFor, h, hw]
  · intro ex cache
    simp [githubUserFor, assocGet]
  · intro ex cache
    simp [githubUserFor, assocGet]

open Tratihubis in
/-- Witness for claim C3: the resolution contract applied at concrete
inputs, discharging the lookup hypotheses there. -/
theorem claim_C3_resolve_contract_witness :
    githubUserFor (fun _ => true) [] [("hugo", "sepp"), ("*", "roskakori")]
      "hugo" false = .ok ("sepp", [])
  ∧ githubUserFor (fun _ => true) [] [("hugo", "sepp"), ("*", "roskakori")]
      "anyone" false = .ok ("roskakori", [])
  ∧ githubUserFor (fun _ => true) [] [] "nobody" false =
      .error (.configError OPTION_USERS
        "Trac user \"%s\" must be mapped to a Github user") :=
  ⟨claim_C3_resolve_contract.1 _ _ _ _ _ (by decide) (by decide),
   claim_C3_resolve_contract.2.2.1 _ _ _ _ _ (by decide) (by decide) (by decide),
   claim_C3_resolve_contract.2.2.2.2.1 _ _ _ _ (by decide) (by decide)⟩

open Tratihubis in
/-- Claim C4 (counterexample): parsing the empty user-mapping definition does
not succeed — `"".split(',')` yields `['']`, the empty entry fails the
two-words check, and `_createTracToGithubUserMap` raises a `_ConfigError`,
contradicting the claim that the empty string is accepted with identity
semantics. -/
theorem claim_C4_empty_definition_rejected :
    createTracToGithubUserMap (fun _ => true) "" =
      .error (.configError OPTION_USERS
        "mapping must use syntax \"trac-user: github-user\" but is: \"\"") := by
  decide

open Tratihubis in
/-- Claim C4 (amended): the default definition `"*:*"` parses without error
to the wildcard identity map, under which every source user resolves to
itself; the empty string, by contrast, is rejected with a `_ConfigError`
during parsing. -/
theorem claim_C4_wildcard_default_identity :
    createTracToGithubUserMap (fun _ => true) "*:*" = .ok ([("*", "*")], [])
  ∧ (∀ (ex : String → Bool) (cache : List String) (x : String),
      githubUserFor ex cache [("*", "*")] x false = .ok (x, cache))
  ∧ (∃ option message, createTracToGithubUserMap (fun _ => true) "" =
      .error (.configError option message)) :=
  ⟨by decide, githubUserFor_wildcard_identity,
   ⟨OPTION_USERS, "mapping must use syntax \"trac-user: github-user\" but is: \"\"",
    by decide⟩⟩

section CsvHelpers

open Tratihubis

theorem tracTicketRows_error_classify (path : String) :
    ∀ (rows : List (List String)) (idx : Nat) (flag : Bool) (e : MigrateError),
      tracTicketRows path rows idx flag = .error e →
      (∃ s, e = .csvDataError s) ∨ ∃ lit, e = .valueError lit := by
  intro rows
  induction rows with
  | nil => intro idx flag e h; simp [tracTicketRows] at h
  | cons row rest ih =>
    intro idx flag e h
    simp only [tracTicketRows] at h
    split at h
    · simp only [Except.error.injEq] at h
      exact Or.inl ⟨_, h.symm⟩
    · split at h
      · split at h
        · simp only [Except.error.injEq] at h
          exact Or.inr ⟨_, h.symm⟩
        · split at h
          · simp only [Except.error.injEq] at h
            subst h
            exact ih _ _ _ (by assumption)
          · simp at h
      · exact ih _ _ _ h

end CsvHelpers

open Tratihubis in
/-- Claim C7 (counterexample): a tickets CSV whose data row carries the
non-numeric id `"abc"` fails with Python's uncategorized `ValueError` from
`long(row[0])` — there is no dedicated `InvalidId` CSV-data error in the
code, contradicting the claim. -/
theorem claim_C7_nonnumeric_id_counterexample :
    tracTicketMaps "tickets.csv"
      [["id", "type", "owner", "reporter", "milestone", "status", "resolution",
        "summary", "description"],
       ["abc", "defect", "alice", "bob", "", "new", "", "t", "d"]] =
      .error (.valueError "abc") := by decide

open Tratihubis in
/-- Claim C7 (amended): a ticket or comment CSV data row whose id column is
non-numeric makes reading fail with the uncategorized `ValueError` raised by
`long(...)`, carrying the offending literal; the categorized `_CsvDataError`
is reserved for column-count violations, so every reader failure is one of
these two — no dedicated `InvalidId` error exists. -/
theorem claim_C7_nonnumeric_id_uncategorized :
    (∀ (path : String) (row : List String) (rest : List (List String)) (idx : Nat),
        row.length = 9 → pythonLong (row.getD 0 "") = none →
        tracTicketRows path (row :: rest) idx true =
          .error (.valueError (row.getD 0 "")))
  ∧ (∀ (path : String) (row : List String) (rest : List (List String)) (idx : Nat)
        (result : List (Int × List TracComment)),
        row.length = 4 → pythonLong (row.getD 0 "") = none →
        commentRows path (row :: rest) idx true result =
          .error (.valueError (row.getD 0 "")))
  ∧ (∀ (path : String) (rows : List (List String)) (e : MigrateError),
        tracTicketMaps path rows = .error e →
        (∃ s, e = .csvDataError s) ∨ ∃ lit, e = .valueError lit) := by
  refine ⟨?_, ?_, ?_⟩
  · intro path row rest idx h9 hlong
    unfold tracTicketRows
    rw [h9, if_neg (by omega : ¬((9 : Nat) ≠ 9)), if_pos rfl, hlong]
  · intro path row rest idx result h4 hlong
    unfold commentRows
    rw [h4, if_neg (by omega : ¬((4 : Nat) ≠ 4)), if_pos rfl, hlong]
  · intro path rows e h
    exact tracTicketRows_error_classify path rows 0 false e h

open Tratihubis in
/-- Witness for claim C7's amended theorem, applied at concrete rows. -/
theorem claim_C7_nonnumeric_id_uncategorized_witness :
    tracTicketRows "tickets.csv"
      [["abc", "defect", "alice", "bob", "", "new", "", "t", "d"]] 1 true =
      .error (.valueError "abc")
  ∧ commentRows "comments.csv" [["xyz", "2012-05-01", "alice", "hi"]] 1 true [] =
      .error (.valueError "xyz") :=
  ⟨claim_C7_nonnumeric_id_uncategorized.1 _ _ _ _ (by decide) (by decide),
   claim_C7_nonnumeric_id_uncategorized.2.1 _ _ _ _ _ (by decide) (by decide)⟩

open Tratihubis in
/-- Claim C10: the header (first) row of each CSV is itself subject to the
column-count check before being discarded: a tickets header without exactly
9 columns (resp. a comments header without exactly 4) fails with a
`_CsvDataError` whose rendered message names the file's basename and the
1-based row number 1 (`rowIndex = 0`). -/
theorem claim_C10_header_column_check :
    (∀ (path : String) (header : List String) (rest : List (List String)),
        header.length ≠ 9 →
        tracTicketMaps path (header :: rest) =
          .error (.csvDataError (csvErrorMessage path 0
            ("ticket row must have 9 columns but has " ++ toString header.length))))
  ∧ (∀ (path : String) (header : List String) (rest : List (List String)),
        header.length ≠ 4 →
        createTicketToCommentsMap path (some (header :: rest)) =
          .error (.csvDataError (csvErrorMessage path 0
            ("comment row must have 4 columns but has " ++ toString header.length))))
  ∧ (∀ (path message : String),
        csvErrorMessage path 0 message = basename path ++ (":1: " ++ message)) := by
  refine ⟨?_, ?_, ?_⟩
  · intro path header rest h
    simp [tracTicketMaps, tracTicketRows, h]
  · intro path header rest h
    simp [createTicketToCommentsMap, commentRows, h]
  · intro path message
    unfold csvErrorMessage
    apply String.ext
    simp [String.data_append, show (toString (0 + 1) : String).data = ['1'] from rfl]

open Tratihubis in
/-- Witness for claim C10, applied to a 3-column tickets header and a
1-column comments header. -/
theorem claim_C10_header_column_check_witness :
    tracTicketMaps "some/dir/tickets.csv" [["a", "b", "c"]] =
      .error (.csvDataError "tickets.csv:1: ticket row must have 9 columns but has 3")
  ∧ createTicketToCommentsMap "comments.csv" (some [["a"]]) =
      .error (.csvDataError "comments.csv:1: comment row must have 4 columns but has 1") := by
  constructor
  · rw [claim_C10_header_column_check.1 "some/dir/tickets.csv" ["a", "b", "c"] []
      (by decide)]
    decide
  · rw [claim_C10_header_column_check.2.1 "comments.csv" ["a"] [] (by decide)]
    decide

section EngineHelpers

open Tratihubis

theorem assocGet_assocSet_self {α β : Type} [DecidableEq α] (m : List (α × β))
    (k : α) (v : β) : assocGet (assocSet m k v) k = some v := by
  induction m with
  | nil => simp [assocGet, assocSet]
  | cons p rest ih =>
    obtain ⟨k', v'⟩ := p
    by_cases h : k' = k
    · simp [assocGet, assocSet, h]
    · simp [assocGet, assocSet, h, ih]

theorem assocGet_assocSet_ne_none {α β : Type} [DecidableEq α] (m : List (α × β))
    (k t : α) (v : β) (h : assocGet m t ≠ none) :
    assocGet (assocSet m k v) t ≠ none := by
  induction m with
  | nil => simp [assocGet] at h
  | cons p rest ih =>
    obtain ⟨k', v'⟩ := p
    by_cases hk : k' = k
    · subst hk
      by_cases ht : k' = t
      · subst ht; simp [assocSet, assocGet]
      · simp [assocSet, assocGet, ht] at h ⊢
        exact h
    · by_cases ht : k' = t
      · subst ht; simp [assocSet, assocGet, hk]
      · simp [assocSet, assocGet, hk, ht] at h ⊢
        exact ih h

theorem createdMilestoneTitles_append (es es' : List Event) :
    createdMilestoneTitles (es ++ es') =
      createdMilestoneTitles es ++ createdMilestoneTitles es' := by
  simp [createdMilestoneTitles]

theorem createdMilestoneTitles_comments {extra : List Event}
    (h : ∀ e ∈ extra, ∃ n b, e = Event.createComment n b) :
    createdMilestoneTitles extra = [] := by
  induction extra with
  | nil => rfl
  | cons e rest ih =>
    obtain ⟨n, b, rfl⟩ := h e (by simp)
    simpa [createdMilestoneTitles] using ih fun e' he' => h e' (by simp [he'])

theorem possiblyAddLabel_pretend (ts : List LabelRule) (ls : List String)
    (f v : String) : possiblyAddLabel true ts ls f v = ls := by
  unfold possiblyAddLabel
  cases labelFor ts f v <;> simp

theorem resolveMilestone_effect (env : MigrateEnv) (st : MigrateState) (mt : String) :
    ((resolveMilestone env st mt).1.milestones = st.milestones
      ∧ (resolveMilestone env st mt).1.events = st.events)
    ∨ (assocGet st.milestones mt = none
      ∧ ∃ b n, (resolveMilestone env st mt).1.milestones = assocSet st.milestones mt n
        ∧ (resolveMilestone env st mt).1.events =
            st.events ++ [.createMilestone b mt]) := by
  by_cases hl : assocGet st.milestones mt = none
  · right
    refine ⟨hl, ?_⟩
    cases hp : env.pretend
    · exact ⟨true, env.realMilestoneNumber mt,
        by simp [resolveMilestone, hl, hp], by simp [resolveMilestone, hl, hp]⟩
    · exact ⟨false, (st.milestones.length : Int) + 1,
        by simp [resolveMilestone, hl, hp], by simp [resolveMilestone, hl, hp]⟩
  · left
    obtain ⟨v, hv⟩ := Option.ne_none_iff_exists'.mp hl
    simp [resolveMilestone, hv]

theorem resolveMilestone_events_pretend (env : MigrateEnv) (h : env.pretend = true)
    (st : MigrateState) (mt : String) :
    (resolveMilestone env st mt).1.events = st.events
    ∨ (resolveMilestone env st mt).1.events =
        st.events ++ [.createMilestone false mt] := by
  by_cases hl : assocGet st.milestones mt = none
  · right; simp [resolveMilestone, hl, h]
  · left
    obtain ⟨v, hv⟩ := Option.ne_none_iff_exists'.mp hl
    simp [resolveMilestone, hv]

theorem milestoneStage_effect (env : MigrateEnv) (st : MigrateState) (mt : String) :
    ((milestoneStage env st mt).1.milestones = st.milestones
      ∧ (milestoneStage env st mt).1.events = st.events)
    ∨ (assocGet st.milestones mt = none
      ∧ ∃ b n, (milestoneStage env st mt).1.milestones = assocSet st.milestones mt n
        ∧ (milestoneStage env st mt).1.events =
            st.events ++ [.createMilestone b mt]) := by
  unfold milestoneStage
  split
  · rcases hr : resolveMilestone env st mt with ⟨st', n⟩
    rcases resolveMilestone_effect env st mt with ⟨h1, h2⟩ | ⟨h0, b, nn, h1, h2⟩ <;>
      rw [hr] at h1 h2
    · exact Or.inl ⟨h1, h2⟩
    · exact Or.inr ⟨h0, b, nn, h1, h2⟩
  · exact Or.inl ⟨rfl, rfl⟩

theorem milestoneStage_events_pretend (env : MigrateEnv) (h : env.pretend = true)
    (st : MigrateState) (mt : String) :
    (milestoneStage env st mt).1.events = st.events
    ∨ (milestoneStage env st mt).1.events =
        st.events ++ [.createMilestone false mt] := by
  unfold milestoneStage
  split
  · rcases hr : resolveMilestone env st mt with ⟨st', n⟩
    rcases resolveMilestone_events_pretend env h st mt with h2 | h2 <;>
      rw [hr] at h2
    · exact Or.inl h2
    · exact Or.inr h2
  · exact Or.inl rfl

theorem createIssueStep_effect (env : MigrateEnv) (st : MigrateState)
    (ti b a : String) (mn : Option Int) :
    ∃ real n, (createIssueStep env st ti b a mn).1.events =
        st.events ++ [.createIssue real n ti b a mn]
      ∧ (createIssueStep env st ti b a mn).1.milestones = st.milestones := by
  cases hp : env.pretend
  · exact ⟨true, env.realIssueNumber st.realIssueCount,
      by simp [createIssueStep, hp], by simp [createIssueStep, hp]⟩
  · exact ⟨false, st.fakeIssueId,
      by simp [createIssueStep, hp], by simp [createIssueStep, hp]⟩

theorem createIssueStep_events_pretend (env : MigrateEnv) (h : env.pretend = true)
    (st : MigrateState) (ti b a : String) (mn : Option Int) :
    (createIssueStep env st ti b a mn).1.events =
      st.events ++ [.createIssue false st.fakeIssueId ti b a mn] := by
  simp [createIssueStep, h]

theorem addComments_effect (env : MigrateEnv) (i : Int) :
    ∀ (cs : List TracComment) (st : MigrateState),
      (addComments env i st cs).1.milestones = st.milestones
      ∧ ∃ extra, (addComments env i st cs).1.events = st.events ++ extra
          ∧ ∀ e ∈ extra, ∃ n b, e = Event.createComment n b := by
  intro cs
  induction cs with
  | nil =>
    intro st
    exact ⟨rfl, [], by simp [addComments], by simp⟩
  | cons c rest ih =>
    intro st
    unfold addComments
    cases hg : githubUserFor env.userExists st.validatedUsers env.tracToGithubUserMap
        c.author false with
    | error e => exact ⟨rfl, [], by simp, by simp⟩
    | ok p =>
      obtain ⟨a, cache⟩ := p
      cases hp : env.pretend
      · simp only [hp, Bool.false_eq_true, if_false]
        obtain ⟨hm, extra, he, hcc⟩ :=
          ih ({ st with validatedUsers := cache }.emit (.createComment i c.body))
        refine ⟨hm, Event.createComment i c.body :: extra, ?_, ?_⟩
        · rw [he]; simp [MigrateState.emit]
        · intro e hmem
          rcases List.mem_cons.mp hmem with hmem | hmem
          · exact ⟨i, c.body, hmem⟩
          · exact hcc e hmem
      · simp only [hp, if_true]
        obtain ⟨hm, extra, he, hcc⟩ := ih { st with validatedUsers := cache }
        exact ⟨hm, extra, by rw [he], hcc⟩

theorem addComments_events_pretend (env : MigrateEnv) (h : env.pretend = true) (i : Int) :
    ∀ (cs : List TracComment) (st : MigrateState),
      (addComments env i st cs).1.events = st.events := by
  intro cs
  induction cs with
  | nil => intro st; rfl
  | cons c rest ih =>
    intro st
    unfold addComments
    cases hg : githubUserFor env.userExists st.validatedUsers env.tracToGithubUserMap
        c.author false with
    | error e => rfl
    | ok p =>
      obtain ⟨a, cache⟩ := p
      simp only [h, if_true]
      exact ih { st with validatedUsers := cache }

end EngineHelpers

section InvariantHelpers

open Tratihubis

theorem milestoneInv_extend {seed : List (String × Int)} {st st' : MigrateState}
    (hInv : MilestoneInv seed st) (hm : st'.milestones = st.milestones)
    (extra : List Event) (he : st'.events = st.events ++ extra)
    (hext : createdMilestoneTitles extra = []) : MilestoneInv seed st' := by
  obtain ⟨h1, h2, h3, h4⟩ := hInv
  refine ⟨?_, ?_, ?_, ?_⟩
  · rw [he, createdMilestoneTitles_append, hext, List.append_nil]; exact h1
  · rw [he, createdMilestoneTitles_append, hext, List.append_nil]; exact h2
  · intro t ht; rw [hm]; exact h3 t ht
  · intro t ht
    rw [he, createdMilestoneTitles_append, hext, List.append_nil] at ht
    rw [hm]; exact h4 t ht

theorem milestoneInv_emit {seed : List (String × Int)} {st : MigrateState}
    (hInv : MilestoneInv seed st) (e : Event)
    (he : createdMilestoneTitles [e] = []) : MilestoneInv seed (st.emit e) :=
  milestoneInv_extend hInv rfl [e] rfl he

theorem milestoneInv_milestoneStage (env : MigrateEnv) (seed : List (String × Int))
    (st : MigrateState) (mt : String) (hInv : MilestoneInv seed st) :
    MilestoneInv seed (milestoneStage env st mt).1 := by
  rcases milestoneStage_effect env st mt with ⟨hm, he⟩ | ⟨h0, b, n, hm, he⟩
  · exact milestoneInv_extend hInv hm [] (by rw [he, List.append_nil]) rfl
  · obtain ⟨h1, h2, h3, h4⟩ := hInv
    have hnotmem : mt ∉ createdMilestoneTitles st.events := fun hmem => h4 mt hmem h0
    have hsingle : createdMilestoneTitles [Event.createMilestone b mt] = [mt] := rfl
    refine ⟨?_, ?_, ?_, ?_⟩
    · rw [he, createdMilestoneTitles_append, hsingle, List.nodup_append]
      refine ⟨h1, List.nodup_singleton mt, ?_⟩
      intro x hx hxm
      rw [List.mem_singleton.mp hxm] at hx
      exact hnotmem hx
    · intro t ht
      rw [he, createdMilestoneTitles_append, hsingle] at ht
      rcases List.mem_append.mp ht with ht | ht
      · exact h2 t ht
      · rw [List.mem_singleton.mp ht]
        by_contra hcon
        exact h3 mt hcon h0
    · intro t ht
      rw [hm]
      exact assocGet_assocSet_ne_none st.milestones mt t n (h3 t ht)
    · intro t ht
      rw [he, createdMilestoneTitles_append, hsingle] at ht
      rcases List.mem_append.mp ht with ht | ht
      · rw [hm]
        exact assocGet_assocSet_ne_none st.milestones mt t n (h4 t ht)
      · rw [List.mem_singleton.mp ht, hm, assocGet_assocSet_self]
        simp

theorem milestoneInv_processTicketConvert (env : MigrateEnv)
    (seed : List (String × Int)) (st : MigrateState) (t : Ticket) (a : String)
    (hInv : MilestoneInv seed st) :
    MilestoneInv seed (processTicketConvert env st t a).1 := by
  unfold processTicketConvert
  rcases hms : milestoneStage env st (String.mk (pyStrip t.milestone.data)) with ⟨st1, mn⟩
  dsimp only
  have hInv1 : MilestoneInv seed st1 := by
    have h := milestoneInv_milestoneStage env seed st (String.mk (pyStrip t.milestone.data)) hInv
    rw [hms] at h; exact h
  rcases hci : createIssueStep env st1 t.summary t.description a mn with ⟨st2, iss⟩
  dsimp only
  have hInv2 : MilestoneInv seed st2 := by
    obtain ⟨real, n, he, hm⟩ := createIssueStep_effect env st1 t.summary t.description a mn
    rw [hci] at he hm
    exact milestoneInv_extend hInv1 hm _ he (by simp [createdMilestoneTitles])
  have hrest : ∀ st3 : MigrateState, MilestoneInv seed st3 →
      MilestoneInv seed
        ((match (match assocGet env.commentsMap t.id with
            | none => (st3, (none : Option MigrateError))
            | some cs => addComments env iss st3 cs) with
          | (st4, some e) => (st4, some e)
          | (st4, none) =>
            (if t.status = "closed" then
              (if env.pretend then st4 else st4.emit (.editState iss "closed"))
             else st4, none)).1) := by
    intro st3 h3
    cases hcm : assocGet env.commentsMap t.id with
    | none =>
      show MilestoneInv seed
        (if t.status = "closed" then
          (if env.pretend then st3 else st3.emit (.editState iss "closed"))
         else st3)
      split
      · split
        · exact h3
        · exact milestoneInv_emit h3 _ rfl
      · exact h3
    | some cs =>
      show MilestoneInv seed
        ((match addComments env iss st3 cs with
          | (st4, some e) => (st4, some e)
          | (st4, none) =>
            (if t.status = "closed" then
              (if env.pretend then st4 else st4.emit (.editState iss "closed"))
             else st4, none)).1)
      rcases hin : addComments env iss st3 cs with ⟨st4, err⟩
      have h4 : MilestoneInv seed st4 := by
        obtain ⟨hm, extra, he, hcc⟩ := addComments_effect env iss cs st3
        rw [hin] at hm he
        exact milestoneInv_extend h3 hm extra he (createdMilestoneTitles_comments hcc)
      cases err with
      | some e => exact h4
      | none =>
        show MilestoneInv seed
          (if t.status = "closed" then
            (if env.pretend then st4 else st4.emit (.editState iss "closed"))
           else st4)
        split
        · split
          · exact h4
          · exact milestoneInv_emit h4 _ rfl
        · exact h4
  have h3 : MilestoneInv seed
      (if (possiblyAddLabel env.pretend env.transformations
            (possiblyAddLabel env.pretend env.transformations [] "type" t.type)
            "resolution" t.resolution).length > 0 then
        st2.emit (.editLabels iss (possiblyAddLabel env.pretend env.transformations
          (possiblyAddLabel env.pretend env.transformations [] "type" t.type)
          "resolution" t.resolution))
       else st2) := by
    split
    · exact milestoneInv_emit hInv2 _ rfl
    · exact hInv2
  exact hrest _ h3

end InvariantHelpers

section DryRunHelpers

open Tratihubis

theorem isMutating_eq_false_of_fake (e : Tratihubis.Event)
    (h : e.isFakeCreation = true) : e.isMutating = false := by
  cases e with
  | createMilestone real title =>
    cases real
    · rfl
    · simp [Event.isFakeCreation] at h
  | createIssue real n ti b a m =>
    cases real
    · rfl
    · simp [Event.isFakeCreation] at h
  | editLabels n ls => simp [Event.isFakeCreation] at h
  | createComment n b => simp [Event.isFakeCreation] at h
  | editState n s => simp [Event.isFakeCreation] at h

theorem processTicketConvert_fake (env : MigrateEnv) (h : env.pretend = true)
    (st : MigrateState) (t : Ticket) (a : String)
    (hst : ∀ e ∈ st.events, e.isFakeCreation = true) :
    ∀ e ∈ (processTicketConvert env st t a).1.events, e.isFakeCreation = true := by
  unfold processTicketConvert
  rcases hms : milestoneStage env st (String.mk (pyStrip t.milestone.data)) with ⟨st1, mn⟩
  dsimp only
  have hst1 : ∀ e ∈ st1.events, e.isFakeCreation = true := by
    rcases milestoneStage_events_pretend env h st (String.mk (pyStrip t.milestone.data))
        with he | he <;> rw [hms] at he <;> rw [he]
    · exact hst
    · intro e hmem
      rcases List.mem_append.mp hmem with hmem | hmem
      · exact hst e hmem
      · rw [List.mem_singleton.mp hmem]; rfl
  rcases hci : createIssueStep env st1 t.summary t.description a mn with ⟨st2, iss⟩
  dsimp only
  have hst2 : ∀ e ∈ st2.events, e.isFakeCreation = true := by
    have he := createIssueStep_events_pretend env h st1 t.summary t.description a mn
    rw [hci] at he
    rw [he]
    intro e hmem
    rcases List.mem_append.mp hmem with hmem | hmem
    · exact hst1 e hmem
    · rw [List.mem_singleton.mp hmem]; rfl
  have hlab : possiblyAddLabel env.pretend env.transformations
      (possiblyAddLabel env.pretend env.transformations [] "type" t.type)
      "resolution" t.resolution = ([] : List String) := by
    rw [h, possiblyAddLabel_pretend, possiblyAddLabel_pretend]
  rw [hlab, if_neg (by simp : ¬(([] : List String).length > 0))]
  cases hcm : assocGet env.commentsMap t.id with
  | none =>
    dsimp only
    simp only [h, if_pos]
    rw [ite_self]
    exact hst2
  | some cs =>
    show ∀ e ∈ ((match addComments env iss st2 cs with
        | (st4, some e) => (st4, some e)
        | (st4, none) =>
          (if t.status = "closed" then
            (if env.pretend then st4 else st4.emit (.editState iss "closed"))
           else st4, none)).1).events, e.isFakeCreation = true
    rcases hin : addComments env iss st2 cs with ⟨st4, err⟩
    have hst4 : ∀ e ∈ st4.events, e.isFakeCreation = true := by
      have he := addComments_events_pretend env h iss cs st2
      rw [hin] at he
      rw [he]; exact hst2
    cases err with
    | some e => exact hst4
    | none =>
      dsimp only
      simp only [h, if_pos]
      rw [ite_self]
      exact hst4

theorem processTicket_fake (env : MigrateEnv) (h : env.pretend = true)
    (st : MigrateState) (t : Ticket)
    (hst : ∀ e ∈ st.events, e.isFakeCreation = true) :
    ∀ e ∈ (processTicket env st t).1.events, e.isFakeCreation = true := by
  unfold processTicket
  by_cases hc : shouldConvert env.firstTicketIdToConvert env.lastTicketIdToConvert t.id
      = true
  · rw [if_pos hc]
    cases hg : githubUserFor env.userExists st.validatedUsers env.tracToGithubUserMap
        (String.mk (pyStrip t.owner.data)) true with
    | error e => exact hst
    | ok p =>
      obtain ⟨a, cache⟩ := p
      exact processTicketConvert_fake env h _ t a hst
  · rw [if_neg hc]
    exact hst

theorem runTickets_fake (env : MigrateEnv) (h : env.pretend = true) :
    ∀ (tickets : List Ticket) (st : MigrateState),
      (∀ e ∈ st.events, e.isFakeCreation = true) →
      ∀ e ∈ (runTickets env st tickets).1.events, e.isFakeCreation = true := by
  intro tickets
  induction tickets with
  | nil => intro st hst; exact hst
  | cons t rest ih =>
    intro st hst
    unfold runTickets
    rcases hp : processTicket env st t with ⟨st', err⟩
    have hst' : ∀ e ∈ st'.events, e.isFakeCreation = true := by
      have hq := processTicket_fake env h st t hst
      rw [hp] at hq; exact hq
    cases err with
    | some e => exact hst'
    | none => exact ih st' hst'

theorem milestoneInv_processTicket (env : MigrateEnv) (seed : List (String × Int))
    (st : MigrateState) (t : Ticket) (hInv : MilestoneInv seed st) :
    MilestoneInv seed (processTicket env st t).1 := by
  unfold processTicket
  by_cases hc : shouldConvert env.firstTicketIdToConvert env.lastTicketIdToConvert t.id
      = true
  · rw [if_pos hc]
    cases hg : githubUserFor env.userExists st.validatedUsers env.tracToGithubUserMap
        (String.mk (pyStrip t.owner.data)) true with
    | error e => exact hInv
    | ok p =>
      obtain ⟨a, cache⟩ := p
      exact milestoneInv_processTicketConvert env seed _ t a hInv
  · rw [if_neg hc]
    exact hInv

theorem milestoneInv_runTickets (env : MigrateEnv) (seed : List (String × Int)) :
    ∀ (tickets : List Ticket) (st : MigrateState), MilestoneInv seed st →
      MilestoneInv seed (runTickets env st tickets).1 := by
  intro tickets
  induction tickets with
  | nil => intro st hInv; exact hInv
  | cons t rest ih =>
    intro st hInv
    unfold runTickets
    rcases hp : processTicket env st t with ⟨st', err⟩
    have hInv' : MilestoneInv seed st' := by
      have hq := milestoneInv_processTicket env seed st t hInv
      rw [hp] at hq; exact hq
    cases err with
    | some e => exact hInv'
    | none => exact ih st' hInv'

end DryRunHelpers

section ConvertHelpers

open Tratihubis

theorem convertRest_events_extend (env : MigrateEnv) (iss : Int) (t : Ticket) :
    ∀ st3 : MigrateState, ∃ extra,
      ((match (match assocGet env.commentsMap t.id with
          | none => (st3, (none : Option MigrateError))
          | some cs => addComments env iss st3 cs) with
        | (st4, some e) => (st4, some e)
        | (st4, none) =>
          (if t.status = "closed" then
            (if env.pretend then st4 else st4.emit (.editState iss "closed"))
           else st4, none)).1).events = st3.events ++ extra := by
  intro st3
  have hfin : ∀ st4 : MigrateState, ∃ extra2,
      (if t.status = "closed" then
        (if env.pretend then st4 else st4.emit (.editState iss "closed"))
       else st4).events = st4.events ++ extra2 := by
    intro st4
    by_cases hcl : t.status = "closed"
    · rw [if_pos hcl]
      cases hp : env.pretend
      · rw [if_neg (by simp)]
        exact ⟨[Event.editState iss "closed"], rfl⟩
      · rw [if_pos rfl]
        exact ⟨[], by simp⟩
    · rw [if_neg hcl]
      exact ⟨[], by simp⟩
  cases hcm : assocGet env.commentsMap t.id with
  | none =>
    dsimp only
    exact hfin st3
  | some cs =>
    show ∃ extra, ((match addComments env iss st3 cs with
        | (st4, some e) => (st4, some e)
        | (st4, none) =>
          (if t.status = "closed" then
            (if env.pretend then st4 else st4.emit (.editState iss "closed"))
           else st4, none)).1).events = st3.events ++ extra
    rcases hin : addComments env iss st3 cs with ⟨st4, err⟩
    obtain ⟨hm, extra0, he0, hcc⟩ := addComments_effect env iss cs st3
    rw [hin] at he0
    cases err with
    | some e => exact ⟨extra0, he0⟩
    | none =>
      dsimp only
      obtain ⟨extra2, he2⟩ := hfin st4
      exact ⟨extra0 ++ extra2, by rw [he2, he0, List.append_assoc]⟩

theorem processTicketConvert_mem_createIssue (env : MigrateEnv) (st : MigrateState)
    (t : Ticket) (a : String) :
    ∃ real n mnum, Event.createIssue real n t.summary t.description a mnum ∈
      (processTicketConvert env st t a).1.events := by
  unfold processTicketConvert
  rcases hms : milestoneStage env st (String.mk (pyStrip t.milestone.data)) with ⟨st1, mn⟩
  dsimp only
  rcases hci : createIssueStep env st1 t.summary t.description a mn with ⟨st2, iss⟩
  dsimp only
  obtain ⟨real, n, he, _⟩ := createIssueStep_effect env st1 t.summary t.description a mn
  rw [hci] at he
  refine ⟨real, n, mn, ?_⟩
  have hmem2 : Event.createIssue real n t.summary t.description a mn ∈ st2.events := by
    rw [he]; simp
  have hmem3 : Event.createIssue real n t.summary t.description a mn ∈
      (if (possiblyAddLabel env.pretend env.transformations
            (possiblyAddLabel env.pretend env.transformations [] "type" t.type)
            "resolution" t.resolution).length > 0 then
        st2.emit (.editLabels iss (possiblyAddLabel env.pretend env.transformations
          (possiblyAddLabel env.pretend env.transformations [] "type" t.type)
          "resolution" t.resolution))
       else st2).events := by
    split
    · exact List.mem_append.mpr (Or.inl hmem2)
    · exact hmem2
  obtain ⟨extra, hext⟩ := convertRest_events_extend env iss t
    (if (possiblyAddLabel env.pretend env.transformations
          (possiblyAddLabel env.pretend env.transformations [] "type" t.type)
          "resolution" t.resolution).length > 0 then
      st2.emit (.editLabels iss (possiblyAddLabel env.pretend env.transformations
        (possiblyAddLabel env.pretend env.transformations [] "type" t.type)
        "resolution" t.resolution))
     else st2)
  rw [hext]
  exact List.mem_append.mpr (Or.inl hmem3)

end ConvertHelpers

open Tratihubis in
/-- Claim C1: for every ticket input and configuration, a dry-run
(`pretend = true`) execution of `migrateTickets` issues no mutating call to
the tracker — every event in the trace is the construction of a placeholder
`_FakeMilestone` or `_FakeIssue`, and the mutating part of the trace is
empty.  (In particular the unguarded `issue.edit(labels=labels)` never fires,
because in dry-run mode `possiblyAddLabel` leaves `labels` empty.) -/
theorem claim_C1_dry_run_no_mutating_calls :
    ∀ (userExists : String → Bool) (realMilestoneNumber : String → Int)
      (realIssueNumber : Nat → Int) (existingIssueCount : Nat)
      (openMilestones closedMilestones : List (String × Int))
      (commentsMap : List (Int × List TracComment)) (tickets : List Ticket)
      (firstId lastId : Int) (transformations : List LabelRule)
      (userMapping : String),
      (∀ e ∈ (migrateTickets userExists realMilestoneNumber realIssueNumber
          existingIssueCount openMilestones closedMilestones commentsMap tickets
          firstId lastId transformations userMapping true).1.events,
        e.isFakeCreation = true)
      ∧ (migrateTickets userExists realMilestoneNumber realIssueNumber
          existingIssueCount openMilestones closedMilestones commentsMap tickets
          firstId lastId transformations userMapping true).1.events.filter
          Event.isMutating = [] := by
  intro ue rmn rin cnt om cm comments tickets firstId lastId trans umap
  have hmain : ∀ e ∈ (migrateTickets ue rmn rin cnt om cm comments tickets
      firstId lastId trans umap true).1.events, e.isFakeCreation = true := by
    unfold migrateTickets
    dsimp only
    cases hm : createTracToGithubUserMap ue umap with
    | error e =>
      dsimp only
      intro e' he'
      simp at he'
    | ok p =>
      obtain ⟨userMap, cache⟩ := p
      dsimp only
      apply runTickets_fake _ rfl
      intro e he
      simp at he
  refine ⟨hmain, ?_⟩
  rw [List.filter_eq_nil_iff]
  intro e he
  rw [isMutating_eq_false_of_fake e (hmain e he)]
  simp

open Tratihubis in
/-- Claim C5: within one run of `migrateTickets` the title-to-milestone map
is seeded from the pre-existing open and closed target milestones and
behaves one-to-one: a milestone is created only when its title is absent
from the map (and is immediately inserted), so the created titles are
pairwise distinct and disjoint from the seeded titles — no milestone title
is ever created twice. -/
theorem claim_C5_no_milestone_created_twice :
    ∀ (userExists : String → Bool) (realMilestoneNumber : String → Int)
      (realIssueNumber : Nat → Int) (existingIssueCount : Nat)
      (openMilestones closedMilestones : List (String × Int))
      (commentsMap : List (Int × List TracComment)) (tickets : List Ticket)
      (firstId lastId : Int) (transformations : List LabelRule)
      (userMapping : String) (pretend : Bool),
      (createdMilestoneTitles (migrateTickets userExists realMilestoneNumber
          realIssueNumber existingIssueCount openMilestones closedMilestones
          commentsMap tickets firstId lastId transformations userMapping
          pretend).1.events).Nodup
      ∧ ∀ mt ∈ createdMilestoneTitles (migrateTickets userExists
          realMilestoneNumber realIssueNumber existingIssueCount openMilestones
          closedMilestones commentsMap tickets firstId lastId transformations
          userMapping pretend).1.events,
          assocGet (createMilestoneMap openMilestones closedMilestones) mt = none := by
  intro ue rmn rin cnt om cm comments tickets firstId lastId trans umap pretend
  have hInv : MilestoneInv (createMilestoneMap om cm)
      (migrateTickets ue rmn rin cnt om cm comments tickets firstId lastId
        trans umap pretend).1 := by
    unfold migrateTickets
    dsimp only
    cases hm : createTracToGithubUserMap ue umap with
    | error e =>
      dsimp only
      exact ⟨by simp [createdMilestoneTitles], by simp [createdMilestoneTitles],
        fun t ht => ht, by simp [createdMilestoneTitles]⟩
    | ok p =>
      obtain ⟨userMap, cache⟩ := p
      dsimp only
      apply milestoneInv_runTickets
      exact ⟨by simp [createdMilestoneTitles], by simp [createdMilestoneTitles],
        fun t ht => ht, by simp [createdMilestoneTitles]⟩
  exact ⟨hInv.1, hInv.2.1⟩

open Tratihubis in
/-- Claim C8: a ticket converts exactly when
`firstTicketIdToConvert ≤ ticketId` and (`lastTicketIdToConvert = 0` or
`ticketId ≤ lastTicketIdToConvert`); a ticket outside the range is skipped
with no state change and no event; a ticket inside the range either raises a
configuration error or produces a created-issue event carrying its summary
and description; and with `firstTicketIdToConvert = 2`,
`lastTicketIdToConvert = 0`, ticket id 1 is skipped while every id ≥ 2
converts. -/
theorem claim_C8_ticket_range_filter :
    (∀ firstId lastId ticketId : Int,
        shouldConvert firstId lastId ticketId = true ↔
          (firstId ≤ ticketId ∧ (lastId = 0 ∨ ticketId ≤ lastId)))
  ∧ (∀ (env : MigrateEnv) (st : MigrateState) (t : Ticket),
        shouldConvert env.firstTicketIdToConvert env.lastTicketIdToConvert t.id
          = false →
        processTicket env st t = (st, none))
  ∧ (∀ (env : MigrateEnv) (st : MigrateState) (t : Ticket),
        shouldConvert env.firstTicketIdToConvert env.lastTicketIdToConvert t.id
          = true →
        (processTicket env st t).2.isSome = true
        ∨ ∃ real n assignee mnum,
            Event.createIssue real n t.summary t.description assignee mnum ∈
              (processTicket env st t).1.events)
  ∧ shouldConvert 2 0 1 = false
  ∧ (∀ ticketId : Int, 2 ≤ ticketId → shouldConvert 2 0 ticketId = true) := by
  have hiff : ∀ firstId lastId ticketId : Int,
      shouldConvert firstId lastId ticketId = true ↔
        (firstId ≤ ticketId ∧ (lastId = 0 ∨ ticketId ≤ lastId)) := by
    intro firstId lastId ticketId
    simp only [shouldConvert, Bool.and_eq_true, Bool.or_eq_true, decide_eq_true_eq,
      ge_iff_le]
    tauto
  refine ⟨hiff, ?_, ?_, by decide, ?_⟩
  · intro env st t h
    unfold processTicket
    rw [if_neg (by simp [h])]
  · intro env st t h
    unfold processTicket
    rw [if_pos h]
    cases hg : githubUserFor env.userExists st.validatedUsers env.tracToGithubUserMap
        (String.mk (pyStrip t.owner.data)) true with
    | error e => exact Or.inl rfl
    | ok p =>
      obtain ⟨a, cache⟩ := p
      obtain ⟨real, n, mnum, hmem⟩ := processTicketConvert_mem_createIssue env
        { st with validatedUsers := cache } t a
      exact Or.inr ⟨real, n, a, mnum, hmem⟩
  · intro ticketId h
    exact (hiff 2 0 ticketId).mpr ⟨h, Or.inl rfl⟩

open Tratihubis in
/-- Witness for claim C8, applied at concrete inputs: with the sample dry-run
environment converting from id 5 on, the id-1 sample ticket is skipped
without any effect; the range test instantiated at `(2, 0, 1)`; and id 7 is
within the unbounded-from-2 range. -/
theorem claim_C8_ticket_range_filter_witness :
    processTicket sampleEnv sampleState sampleTicket = (sampleState, none)
  ∧ ((processTicket sampleEnvAll sampleState sampleTicket).2.isSome = true
      ∨ ∃ real n assignee mnum,
          Event.createIssue real n sampleTicket.summary sampleTicket.description
            assignee mnum ∈ (processTicket sampleEnvAll sampleState sampleTicket).1.events)
  ∧ (shouldConvert 2 0 1 = true ↔ ((2 : Int) ≤ 1 ∧ ((0 : Int) = 0 ∨ (1 : Int) ≤ 0)))
  ∧ shouldConvert 2 0 7 = true :=
  ⟨claim_C8_ticket_range_filter.2.1 sampleEnv sampleState sampleTicket (by decide),
   claim_C8_ticket_range_filter.2.2.1 sampleEnvAll sampleState sampleTicket (by decide),
   claim_C8_ticket_range_filter.1 2 0 1,
   claim_C8_ticket_range_filter.2.2.2.2 7 (by decide)⟩

set_option maxRecDepth 100000

section TranslatorHelpers

open Translator

theorem subGo_succ {ε : Type} (r : Re) (f : Caps → Except ε (List Char)) (fuel : Nat)
    (prev : Option Char) (s : List Char) :
    subGo r f (fuel + 1) prev s =
      (match searchFrom r prev s with
      | none => .ok s
      | some (skipped, caps, matched, prevAfter, rest) =>
        match f caps with
        | .error er => .error er
        | .ok repl =>
          match matched with
          | [] =>
            match rest with
            | [] => .ok (skipped ++ repl)
            | c :: rest2 =>
              match subGo r f fuel (some c) rest2 with
              | .error er => .error er
              | .ok tail => .ok (skipped ++ repl ++ c :: tail)
          | _ :: _ =>
            match subGo r f fuel prevAfter rest with
            | .error er => .error er
            | .ok tail => .ok (skipped ++ repl ++ tail)) := rfl

theorem subGo_found {ε : Type} (r : Re) (f : Caps → Except ε (List Char)) (fuel : Nat)
    (prev : Option Char) (s skipped : List Char) (caps : Caps) (matched : List Char)
    (prevAfter : Option Char) (rest : List Char)
    (hs : searchFrom r prev s = some (skipped, caps, matched, prevAfter, rest))
    (hne : matched ≠ []) :
    subGo r f (fuel + 1) prev s =
      match f caps with
      | .error er => .error er
      | .ok repl =>
        match subGo r f fuel prevAfter rest with
        | .error er => .error er
        | .ok tail => .ok (skipped ++ repl ++ tail) := by
  rw [subGo_succ, hs]
  cases matched with
  | nil => exact absurd rfl hne
  | cons c cs => rfl

theorem searchFrom_ticketRefRe_nil (prev : Option Char) :
    searchFrom ticketRefRe prev [] = none := rfl

theorem subGo_ticketRefRe_nil {ε : Type} (f : Caps → Except ε (List Char))
    (fuel : Nat) (prev : Option Char) :
    subGo ticketRefRe f fuel prev [] = .ok [] := by
  cases fuel with
  | zero => rfl
  | succ k => rw [subGo_succ, searchFrom_ticketRefRe_nil]

set_option maxHeartbeats 2000000

theorem searchFrom_ticketRef_digits (ds : List Char) (hne : ds ≠ [])
    (hlen : ds.length ≤ 3) (hdig : ∀ ch ∈ ds, ch.isDigit = true) :
    searchFrom ticketRefRe none ("ticket:".data ++ ds) =
      some ([], [(1, ds)], "ticket:".data ++ ds, ds.getLast?, []) := by
  cases ds with
  | nil => exact absurd rfl hne
  | cons a tl =>
    have ha : a.isDigit = true := hdig a (by simp)
    cases tl with
    | nil =>
      simp [searchFrom, matchFuel, mrun, ha, ticketRefRe, seqList, strRe, digitC]
    | cons b tl2 =>
      have hb : b.isDigit = true := hdig b (by simp)
      cases tl2 with
      | nil =>
        simp [searchFrom, matchFuel, mrun, ha, hb, ticketRefRe, seqList, strRe, digitC]
      | cons c tl3 =>
        have hc : c.isDigit = true := hdig c (by simp)
        cases tl3 with
        | nil =>
          simp [searchFrom, matchFuel, mrun, ha, hb, hc, ticketRefRe, seqList, strRe,
            digitC]
        | cons d tl4 =>
          simp at hlen

theorem ticketRefSub_ticket_digits (m : List (Nat × Nat)) (ds : List Char)
    (hne : ds ≠ []) (hlen : ds.length ≤ 3)
    (hdig : ∀ ch ∈ ds, ch.isDigit = true) :
    ticketRefSub m ("ticket:".data ++ ds) =
      match Tratihubis.assocGet m (Tratihubis.digitsToNat ds) with
      | some n => .ok ("issue #".data ++ (toString n).data)
      | none => .error (.keyError (Tratihubis.digitsToNat ds)) := by
  have hs := searchFrom_ticketRef_digits ds hne hlen hdig
  unfold ticketRefSub subAllF
  rw [subGo_found ticketRefRe (ticketRefReplacement m) ("ticket:".data ++ ds).length
      none ("ticket:".data ++ ds) [] [(1, ds)] ("ticket:".data ++ ds) ds.getLast? []
      hs (List.cons_ne_nil _ _)]
  rw [subGo_ticketRefRe_nil]
  simp only [ticketRefReplacement]
  rw [show capGet [(1, ds)] 1 = ds from rfl]
  cases hm : Tratihubis.assocGet m (Tratihubis.digitsToNat ds) <;> simp

end TranslatorHelpers

open Translator in
/-- Claim C6 (counterexample): the ticket cross-reference pattern matches at
most three digits, so for the id 1234 — present in the supplied map with
issue number 5 — the reference `ticket:1234` is rewritten using the entry
for 123 (issue 7) with the fourth digit left behind, yielding `issue #74`:
neither `issue #5` nor a key-not-found failure, contradicting the claim for
ids of four or more digits. -/
theorem claim_C6_four_digit_id_mistranslated :
    ticketRefSub [(123, 7), (1234, 5)] "ticket:1234".data = .ok "issue #74".data
  ∧ "issue #74".data ≠ "issue #5".data :=
  ⟨by decide, by decide⟩

open Translator in
/-- Claim C6 (amended): the ticket cross-reference rule rewrites only ids of
one to three digits (the pattern is `ticket:([0-9]{1,3})`).  For every digit
string `ds` of length one to three and every ticket-to-issue map, the
reference `ticket:<ds>` is rewritten to `issue #<n>` where `n` is exactly
the map's entry for `int(ds)`, and when that id is absent from the map the
translation fails with a `KeyError` carrying the id rather than passing the
text through; a reference embedded in surrounding text is checked at a
representative instance.  For ids of four or more digits only the first
three digits form the looked-up id (see the counterexample). -/
theorem claim_C6_ticket_reference_lookup :
    (∀ (ds : List Char) (m : List (Nat × Nat)) (n : Nat),
        ds ≠ [] → ds.length ≤ 3 → (∀ ch ∈ ds, ch.isDigit = true) →
        Tratihubis.assocGet m (Tratihubis.digitsToNat ds) = some n →
        ticketRefSub m ("ticket:".data ++ ds) =
          .ok ("issue #".data ++ (toString n).data))
  ∧ (∀ (ds : List Char) (m : List (Nat × Nat)),
        ds ≠ [] → ds.length ≤ 3 → (∀ ch ∈ ds, ch.isDigit = true) →
        Tratihubis.assocGet m (Tratihubis.digitsToNat ds) = none →
        ticketRefSub m ("ticket:".data ++ ds) =
          .error (.keyError (Tratihubis.digitsToNat ds)))
  ∧ ticketRefSub [(7, 9)] "see ticket:7 now".data = .ok "see issue #9 now".data := by
  refine ⟨?_, ?_, by decide⟩
  · intro ds m n h1 h2 h3 hm
    rw [ticketRefSub_ticket_digits m ds h1 h2 h3, hm]
  · intro ds m h1 h2 h3 hm
    rw [ticketRefSub_ticket_digits m ds h1 h2 h3, hm]

open Translator in
/-- Witness for claim C6's amended theorem: the universal statement applied
at the two-digit id 42 — rewritten through the entry `42 -> 7`, and failing
with `KeyError 42` under the empty map — and at the three-digit id 123. -/
theorem claim_C6_ticket_reference_lookup_witness :
    ticketRefSub [(42, 7)] ("ticket:".data ++ "42".data) =
      .ok ("issue #".data ++ (toString 7).data)
  ∧ ticketRefSub [] ("ticket:".data ++ "42".data) = .error (.keyError 42)
  ∧ ticketRefSub [(123, 8)] ("ticket:".data ++ "123".data) =
      .ok ("issue #".data ++ (toString 8).data) :=
  ⟨claim_C6_ticket_reference_lookup.1 "42".data [(42, 7)] 7 (by decide) (by decide)
      (by decide) (by decide),
   claim_C6_ticket_reference_lookup.2.1 "42".data [] (by decide) (by decide)
      (by decide) (by decide),
   claim_C6_ticket_reference_lookup.1 "123".data [(123, 8)] 8 (by decide) (by decide)
      (by decide) (by decide)⟩

open Translator in
/-- Claim C9 (counterexample): the context-free substitution pipeline is not
idempotent on its own output.  One application to the Trac link
`[http://abc some text]` yields the markdown link `[some text](http://abc)`
(via the link-reordering rule), but a second application re-matches the
bracketed text that rule itself produced and yields
`[text](some)(http://abc)`. -/
theorem claim_C9_not_idempotent_counterexample :
    contextFreeApply "http://trac"
        (contextFreeApply "http://trac" "[http://abc some text]".data)
      ≠ contextFreeApply "http://trac" "[http://abc some text]".data := by
  decide

open Translator in
/-- Claim C9 (amended): reapplying the context-free pipeline yields no
further change only on texts the pipeline already leaves unchanged; on its
own output idempotence can fail, because the link-reordering rule matches
bracketed text introduced by its own substitution (see the
counterexample). -/
theorem claim_C9_fixpoint_idempotent (u : String) (s : List Char)
    (h : contextFreeApply u s = s) :
    contextFreeApply u (contextFreeApply u s) = contextFreeApply u s := by
  rw [h]
  exact h

open Translator in
/-- Witness for claim C9's amended theorem: the pipeline leaves `"hello"`
unchanged, so a second application changes nothing either. -/
theorem claim_C9_fixpoint_idempotent_witness :
    contextFreeApply "http://trac" "hello".data = "hello".data
  ∧ contextFreeApply "http://trac" (contextFreeApply "http://trac" "hello".data)
      = contextFreeApply "http://trac" "hello".data :=
  ⟨by decide, claim_C9_fixpoint_idempotent "http://trac" "hello".data (by decide)⟩

open Tratihubis in
/-- Witness for claim C1: the dry-run theorem applied at a concrete
configuration with one ticket — the mutating part of the trace is empty. -/
theorem claim_C1_dry_run_no_mutating_calls_witness :
    (migrateTickets (fun _ => true) (fun _ => 1) (fun _ => 1) 0 [("M1", 1)] []
      [] [sampleTicket] 1 0 [] "*:*" true).1.events.filter Event.isMutating = [] :=
  (claim_C1_dry_run_no_mutating_calls (fun _ => true) (fun _ => 1) (fun _ => 1) 0
    [("M1", 1)] [] [] [sampleTicket] 1 0 [] "*:*").2

open Tratihubis in
/-- Witness for claim C5: the milestone-uniqueness theorem applied at a
concrete configuration with one ticket. -/
theorem claim_C5_no_milestone_created_twice_witness :
    (createdMilestoneTitles (migrateTickets (fun _ => true) (fun _ => 1)
      (fun _ => 1) 0 [] [] [] [sampleTicket] 1 0 [] "*:*" true).1.events).Nodup :=
  (claim_C5_no_milestone_created_twice (fun _ => true) (fun _ => 1) (fun _ => 1)
    0 [] [] [] [sampleTicket] 1 0 [] "*:*" true).1
